import Mathlib

/-!
A verification development for the stepper-motor core of grbl (stepper.c).

The definitions below are a shallow embedding of stepper.c: machine
integers become Nat (for the unsigned counters, bit masks and indices) or
Int (for the signed Bresenham counters and absolute positions), the global
mutable state of the module becomes an explicit record StState threaded
through the functions, and the timer-interrupt handler SIG_OUTPUT_COMPARE1A
becomes the state-transition function st_tick.  Hardware register writes
(STEPPING_PORT, TCCR1B/OCR1A, TIMSK1, the enable pin) are modelled as
fields of the state; external callbacks (set_gcPosition) are modelled by a
counter of their invocations plus the copied value.  The handler is
executed in a single logical thread (the busy reentrancy flag is always
false on entry in this model), and the cooperative wait loops of the
enqueue operations (while st_buffer_full sleep) are modelled by stating
theorems under the hypothesis that the buffer is not full.
-/

set_option maxRecDepth 10000

namespace Grbl

/-- Stepping mode of a block: SM_RUN executes Bresenham steps, SM_HALT is a
pure delay (StepModeT in stepper.h). -/
inductive StepModeT where
  | SM_RUN : StepModeT
  | SM_HALT : StepModeT
deriving DecidableEq, Repr, Inhabited

open StepModeT

/-- Modelled from the spec: config.h is not part of the given source; per the
spec the direction/step bits form a bitmask with one bit per axis, and we fix
the conventional grbl pin assignment (step bits 2..4, direction bits 5..7).
The claims only rely on these six bit positions being pairwise distinct. -/
def X_STEP_BIT : Nat := 2

/-- Y axis step bit position (see X_STEP_BIT). -/
def Y_STEP_BIT : Nat := 3

/-- Z axis step bit position (see X_STEP_BIT). -/
def Z_STEP_BIT : Nat := 4

/-- X axis direction bit position (see X_STEP_BIT). -/
def X_DIRECTION_BIT : Nat := 5

/-- Y axis direction bit position (see X_STEP_BIT). -/
def Y_DIRECTION_BIT : Nat := 6

/-- Z axis direction bit position (see X_STEP_BIT). -/
def Z_DIRECTION_BIT : Nat := 7

/-- Mask of the three step bits. -/
def STEP_MASK : Nat := (1 <<< X_STEP_BIT) ||| (1 <<< Y_STEP_BIT) ||| (1 <<< Z_STEP_BIT)

/-- Mask of the three direction bits. -/
def DIRECTION_MASK : Nat :=
  (1 <<< X_DIRECTION_BIT) ||| (1 <<< Y_DIRECTION_BIT) ||| (1 <<< Z_DIRECTION_BIT)

/-- Modelled from the spec: the hardware ticks-per-microsecond constant of
config.h (16 for a 16 MHz clock, the value used by the spec's examples). -/
def TICKS_PER_MICROSECOND : Nat := 16

/-- Block buffer capacity (stepper.c line 50, the non-ATmega328 branch; the
328 branch uses 20 instead and the claims do not depend on the choice). -/
def BLOCK_BUFFER_SIZE : Nat := 10

/-- One buffered motion block (struct Block, stepper.c lines 54-65).
maximum_steps is declared int32_t in the source but only ever holds
nonnegative step counts, so it is embedded as Nat. -/
structure Block where
  steps_x : Nat
  steps_y : Nat
  steps_z : Nat
  pos_x : Int
  pos_y : Int
  pos_z : Int
  maximum_steps : Nat
  direction_bits : Nat
  rate : Nat
  backlash : Bool
  line_number : Int
  mode : StepModeT
deriving DecidableEq, Repr

instance : Inhabited Block :=
  ⟨{ steps_x := 0, steps_y := 0, steps_z := 0, pos_x := 0, pos_y := 0, pos_z := 0,
     maximum_steps := 0, direction_bits := 0, rate := 0, backlash := false,
     line_number := 0, mode := SM_RUN }⟩

/-- The read-only settings snapshot consumed by stepper.c (backlash counts,
pin-inversion mask, pulse width). -/
structure Settings where
  backlash_x_count : Nat
  backlash_y_count : Nat
  backlash_z_count : Nat
  invert_mask : Nat
  pulse_microseconds : Nat
deriving DecidableEq, Repr

/-- config_step_timer (stepper.c lines 456-485): maps a desired inter-step
interval in microseconds to a (prescaler tier, ceiling) pair.  The uint32
multiplication microseconds*TICKS_PER_MICROSECOND wraps modulo 2^32.  The
source then writes prescaler+1 into the TCCR1B clock-select field; the first
component here is the tier value 0..4 as in the source's comments. -/
def config_step_timer (microseconds : Nat) : Nat × Nat :=
  let ticks := (microseconds * TICKS_PER_MICROSECOND) % 4294967296
  if ticks ≤ 0xffff then (0, ticks)
  else if ticks ≤ 0x7ffff then (1, ticks >>> 3)
  else if ticks ≤ 0x3fffff then (2, ticks >>> 6)
  else if ticks ≤ 0xffffff then (3, ticks >>> 8)
  else if ticks ≤ 0x3ffffff then (4, ticks >>> 10)
  else (4, 0xffff)

/-- The five-tier ladder exactly as the specification words it (spec section
4.3 and claim C2), for comparison with config_step_timer. -/
def spec_timer_ladder (ticks : Nat) : Nat × Nat :=
  if ticks ≤ 2 ^ 16 - 1 then (0, ticks)
  else if ticks ≤ 2 ^ 19 - 1 then (1, ticks >>> 3)
  else if ticks ≤ 2 ^ 22 - 1 then (2, ticks >>> 6)
  else if ticks ≤ 2 ^ 24 - 1 then (3, ticks >>> 8)
  else if ticks ≤ 2 ^ 26 - 1 then (4, ticks >>> 10)
  else (4, 0xffff)

/-- The complete mutable state of the stepper module: the file-scope
variables of stepper.c plus the modelled hardware registers and the
upstream position store.  current_block is a pointer into block_buffer and
is embedded as an optional index. -/
structure StState where
  out_bits : Nat
  current_block : Option Nat
  counter_x : Int
  counter_y : Int
  counter_z : Int
  iterations : Nat
  old_direction_bits : Nat
  block_buffer : Nat → Block
  block_buffer_head : Nat
  block_buffer_tail : Nat
  actual_position_x : Int
  actual_position_y : Int
  actual_position_z : Int
  position_x : Int
  position_y : Int
  position_z : Int
  buttons_in_use : Bool
  mc_running : Bool
  acting_line_number : Int
  st_current_mode : StepModeT
  stepper_interrupt_enabled : Bool
  steppers_enabled : Bool
  timer_prescaler : Nat
  timer_ceiling : Nat
  stepping_port : Nat
  sync_count : Nat

/-- st_buffer_full (stepper.c lines 98-119): the buffer is reported full when
fewer than two slots remain, reserving room for an implicit backlash block. -/
def st_buffer_full (s : StState) : Bool :=
  ((s.block_buffer_head + 1) % BLOCK_BUFFER_SIZE == s.block_buffer_tail) ||
  ((s.block_buffer_head + 2) % BLOCK_BUFFER_SIZE == s.block_buffer_tail)

/-- Number of free slots of the ring buffer (capacity BLOCK_BUFFER_SIZE, one
slot kept empty to distinguish full from empty). -/
def free_slots (s : StState) : Nat :=
  (s.block_buffer_tail + BLOCK_BUFFER_SIZE - s.block_buffer_head - 1) % BLOCK_BUFFER_SIZE

/-- A slot index holds a block the consumer has not yet read: it lies in the
occupied region from tail (inclusive) to head (exclusive), taken mod the
buffer size. -/
def slot_unread (s : StState) (k : Nat) : Bool :=
  (List.range ((s.block_buffer_head + BLOCK_BUFFER_SIZE - s.block_buffer_tail)
      % BLOCK_BUFFER_SIZE)).any
    (fun j => (s.block_buffer_tail + j) % BLOCK_BUFFER_SIZE == k)

/-- st_flush (stepper.c lines 446-452): cancel all buffered steps. -/
def st_flush (s : StState) : StState :=
  { s with block_buffer_tail := s.block_buffer_head, current_block := none }

/-- st_stop (stepper.c lines 494-501): flush the queue, clear the current
block and copy actual_position into the upstream position store. -/
def st_stop (s : StState) : StState :=
  let s := st_flush s
  let s := { s with current_block := none }
  { s with position_x := s.actual_position_x, position_y := s.actual_position_y,
           position_z := s.actual_position_z }

/-- st_buffer_delay (stepper.c lines 121-152).  A zero duration triggers
st_stop and returns 0 (rejected); otherwise a SM_HALT block is written at the
head (only the fields the source assigns; the rest keep the slot's stale
contents) and the head advances.  The cooperative wait on st_buffer_full is
modelled by using this function under a not-full hypothesis. -/
def st_buffer_delay (milliseconds : Nat) (line_number : Int) (s : StState) :
    StState × Bool :=
  if milliseconds = 0 then
    (st_stop s, false)
  else
    let slot := s.block_buffer s.block_buffer_head
    let blk := { slot with
      backlash := false, line_number := line_number,
      maximum_steps := milliseconds, rate := 1000, mode := SM_HALT }
    ({ s with block_buffer := Function.update s.block_buffer s.block_buffer_head blk,
              block_buffer_head := (s.block_buffer_head + 1) % BLOCK_BUFFER_SIZE,
              stepper_interrupt_enabled := true }, true)

/-- The direction bitmask computed by st_buffer_block (stepper.c lines
179-181): one direction bit per axis moving in the negative direction. -/
def dir_bits_of (steps_x steps_y steps_z : Int) : Nat :=
  ((if steps_x < 0 then 1 <<< X_DIRECTION_BIT else 0) |||
   (if steps_y < 0 then 1 <<< Y_DIRECTION_BIT else 0)) |||
  (if steps_z < 0 then 1 <<< Z_DIRECTION_BIT else 0)

/-- st_buffer_block (stepper.c lines 164-248): enqueue a linear move.  An
empty move is rejected.  If the direction bits changed, a backlash
compensation block is prepared at the head (advancing the head only when it
has a nonzero step count) before the real block is written.  The cooperative
wait on st_buffer_full is modelled by using this function under a not-full
hypothesis. -/
def st_buffer_block (cfg : Settings) (steps_x steps_y steps_z : Int)
    (pos_x pos_y pos_z : Int) (microseconds : Nat) (line_number : Int)
    (s : StState) : StState × Bool :=
  let maximum_steps := max steps_x.natAbs (max steps_y.natAbs steps_z.natAbs)
  if maximum_steps = 0 then
    (s, false)
  else
    let direction_bits := dir_bits_of steps_x steps_y steps_z
    let s :=
      if direction_bits ≠ s.old_direction_bits then
        let slot := s.block_buffer s.block_buffer_head
        let changed_dir := direction_bits ^^^ s.old_direction_bits
        let comp :=
          { slot with
            backlash := true, direction_bits := direction_bits,
            line_number := line_number,
            steps_x := if changed_dir.testBit X_DIRECTION_BIT then cfg.backlash_x_count else 0,
            steps_y := if changed_dir.testBit Y_DIRECTION_BIT then cfg.backlash_y_count else 0,
            steps_z := if changed_dir.testBit Z_DIRECTION_BIT then cfg.backlash_z_count else 0,
            pos_x := pos_x, pos_y := pos_y, pos_z := pos_z,
            rate := microseconds / maximum_steps, mode := SM_RUN,
            maximum_steps := 0 }
        let comp := { comp with
          maximum_steps := max comp.steps_x (max comp.steps_y comp.steps_z) }
        let s := { s with old_direction_bits := direction_bits,
                          block_buffer :=
                            Function.update s.block_buffer s.block_buffer_head comp }
        if 0 < comp.maximum_steps then
          { s with block_buffer_head := (s.block_buffer_head + 1) % BLOCK_BUFFER_SIZE }
        else s
      else s
    let slot := s.block_buffer s.block_buffer_head
    let blk :=
      { slot with
        backlash := false, line_number := line_number,
        steps_x := steps_x.natAbs, steps_y := steps_y.natAbs, steps_z := steps_z.natAbs,
        pos_x := pos_x, pos_y := pos_y, pos_z := pos_z,
        maximum_steps := maximum_steps,
        rate := microseconds / maximum_steps, mode := SM_RUN,
        direction_bits := direction_bits }
    ({ s with block_buffer := Function.update s.block_buffer s.block_buffer_head blk,
              block_buffer_head := (s.block_buffer_head + 1) % BLOCK_BUFFER_SIZE,
              stepper_interrupt_enabled := true }, true)

/-- FULL_SPEED_DELAY (stepper.c line 518): 60000000 / (480*1260), about 99
microseconds, integer division as in the source macro. -/
def FULL_SPEED_DELAY : Nat := 60000000 / (480 * 1260)

/-- The direction bits st_process_manual_buttons derives from the signs of
the three axis magnitudes (stepper.c lines 543-545). -/
def jog_dir_bits (b0 b1 b2 : Int) : Nat :=
  let ob : Nat := 0
  let ob := if b0 < 0 then ob ||| (1 <<< X_DIRECTION_BIT) else ob
  let ob := if b1 < 0 then ob ||| (1 <<< Y_DIRECTION_BIT) else ob
  if b2 < 0 then ob ||| (1 <<< Z_DIRECTION_BIT) else ob

/-- One axis of the jog update (the pattern repeated for x, y and z at
stepper.c lines 549-590): for a nonzero magnitude, compute the exponential
delay, set the step bit and move the position by one in the direction given
by the direction bit of out_bits.  Returns (position, out_bits, delay); the
caller configures the timer from the final delay, matching the source where
each active branch reprograms the timer and only the last call survives the
invocation. -/
def jog_axis (bi : Int) (step_bit dir_bit : Nat) (pos : Int) (out_bits delay : Nat) :
    Int × Nat × Nat :=
  if 0 < bi.natAbs then
    let delay := FULL_SPEED_DELAY <<< (8 - bi.natAbs)
    let out_bits := out_bits ||| (1 <<< step_bit)
    if out_bits.testBit dir_bit then (pos - 1, out_bits, delay)
    else (pos + 1, out_bits, delay)
  else (pos, out_bits, delay)

/-- st_process_manual_buttons (stepper.c lines 524-597).  The second
component of the result records that the assignment
out_bits = current_block->direction_bits read through a null current_block
(the only call site runs with a cleared current block; the value of that
read is discarded by the immediately following out_bits = 0, so the rest of
the behaviour does not depend on it).  The max_rate computation of lines
530-534 is dead code (max_rate is never used) and is omitted.  The local
variable delay starts at 1000; config_step_timer is called with it up front
and again in every active axis branch, and only the final call's
configuration survives the invocation, so the timer fields are set once
from the final delay. -/
def st_process_manual_buttons (cfg : Settings) (buttons : List Int) (s : StState) :
    StState × Bool :=
  let delay : Nat := 1000
  let null_read := s.current_block.isNone
  let out_bits := jog_dir_bits (buttons.getD 0 0) (buttons.getD 1 0) (buttons.getD 2 0)
  let r0 := jog_axis (buttons.getD 0 0) X_STEP_BIT X_DIRECTION_BIT
    s.actual_position_x out_bits delay
  let r1 := jog_axis (buttons.getD 1 0) Y_STEP_BIT Y_DIRECTION_BIT
    s.actual_position_y r0.2.1 r0.2.2
  let r2 := jog_axis (buttons.getD 2 0) Z_STEP_BIT Z_DIRECTION_BIT
    s.actual_position_z r1.2.1 r1.2.2
  ({ s with
      timer_prescaler := (config_step_timer r2.2.2).1,
      timer_ceiling := (config_step_timer r2.2.2).2,
      actual_position_x := r0.1,
      actual_position_y := r1.1,
      actual_position_z := r2.1,
      out_bits := r2.2.1 ^^^ cfg.invert_mask }, null_read)

/-- The out_bits value st_process_manual_buttons computes before the
inversion mask: direction bits from the signs of the three axis magnitudes,
then a step bit for every axis with nonzero magnitude. -/
def jog_out_bits (b0 b1 b2 : Int) : Nat :=
  let ob := jog_dir_bits b0 b1 b2
  let ob := if 0 < b0.natAbs then ob ||| (1 <<< X_STEP_BIT) else ob
  let ob := if 0 < b1.natAbs then ob ||| (1 <<< Y_STEP_BIT) else ob
  if 0 < b2.natAbs then ob ||| (1 <<< Z_STEP_BIT) else ob

/-- The delay value left in the local variable of st_process_manual_buttons
when it last calls config_step_timer: the exponential ladder of the last
active axis in x, y, z order (z wins), or the initial 1000 microseconds when
no axis is active. -/
def jog_delay (b0 b1 b2 : Int) : Nat :=
  if 0 < b2.natAbs then FULL_SPEED_DELAY <<< (8 - b2.natAbs)
  else if 0 < b1.natAbs then FULL_SPEED_DELAY <<< (8 - b1.natAbs)
  else if 0 < b0.natAbs then FULL_SPEED_DELAY <<< (8 - b0.natAbs)
  else 1000

/-- The per-axis position change of one jog invocation: one step in the
direction of the sign for an active axis, nothing otherwise. -/
def jog_move (bi : Int) : Int :=
  if 0 < bi.natAbs then (if bi < 0 then -1 else 1) else 0

/-- One axis of the Bresenham update of the interrupt handler (the pattern
repeated for x, y and z at stepper.c lines 345-373): accumulate the step
count into the counter; on overflow past zero set the step bit, rebalance by
the block's maximum_steps, and move the position by one in the direction
given by the direction bit of out_bits.  Returns (counter, position,
out_bits). -/
def axis_step (stepsv maxs : Nat) (step_bit dir_bit : Nat)
    (counter pos : Int) (out_bits : Nat) : Int × Int × Nat :=
  let counter := counter + (stepsv : Int)
  if 0 < counter then
    let out_bits := out_bits ||| (1 <<< step_bit)
    let counter := counter - (maxs : Int)
    if out_bits.testBit dir_bit then (counter, pos - 1, out_bits)
    else (counter, pos + 1, out_bits)
  else (counter, pos, out_bits)

/-- The three chained axis updates of a SM_RUN tick (stepper.c lines
343-377), starting from out_bits = direction_bits of the block.  Returns
(counter_x, counter_y, counter_z, pos_x, pos_y, pos_z, out_bits). -/
def st_run_axes (b : Block) (cx cy cz px py pz : Int) :
    Int × Int × Int × Int × Int × Int × Nat :=
  let r1 := axis_step b.steps_x b.maximum_steps X_STEP_BIT X_DIRECTION_BIT cx px
    b.direction_bits
  let r2 := axis_step b.steps_y b.maximum_steps Y_STEP_BIT Y_DIRECTION_BIT cy py r1.2.2
  let r3 := axis_step b.steps_z b.maximum_steps Z_STEP_BIT Z_DIRECTION_BIT cz pz r2.2.2
  (r1.1, r2.1, r3.1, r1.2.1, r2.2.1, r3.2.1, r3.2.2)

/-- One invocation of the stepper driver interrupt SIG_OUTPUT_COMPARE1A
(stepper.c lines 267-389).  The busy reentrancy guard is always false on
entry in this single-threaded model; TCNT2 arming of the pulse-width reset
interrupt and the sei/cli interrupt toggles are not represented.  The top of
the handler asserts the previously computed out_bits onto the stepping port
(direction bits first, then the step pulse). -/
def st_tick (cfg : Settings) (buttons : List Int) (s0 : StState) : StState :=
  let port := (s0.stepping_port &&& (255 ^^^ DIRECTION_MASK)) ||| (s0.out_bits &&& DIRECTION_MASK)
  let port := (port &&& (255 ^^^ STEP_MASK)) ||| s0.out_bits
  let s := { s0 with stepping_port := port, steppers_enabled := true }
  let s :=
    match s.current_block with
    | some _ => s
    | none =>
      if s.block_buffer_head ≠ s.block_buffer_tail then
        let blk := s.block_buffer s.block_buffer_tail
        let s := { s with current_block := some s.block_buffer_tail,
                          acting_line_number := blk.line_number,
                          st_current_mode := blk.mode,
                          timer_prescaler := (config_step_timer blk.rate).1,
                          timer_ceiling := (config_step_timer blk.rate).2,
                          iterations := blk.maximum_steps }
        if blk.mode = SM_RUN then
          { s with counter_x := -((blk.maximum_steps >>> 1 : Nat) : Int),
                   counter_y := -((blk.maximum_steps >>> 1 : Nat) : Int),
                   counter_z := -((blk.maximum_steps >>> 1 : Nat) : Int),
                   actual_position_x := blk.pos_x,
                   actual_position_y := blk.pos_y,
                   actual_position_z := blk.pos_z }
        else
          if s.iterations = 0 then
            { (st_flush s) with out_bits := 0, stepper_interrupt_enabled := false,
                                steppers_enabled := false, mc_running := false }
          else s
      else
        if buttons.getD 0 0 ≠ 0 ∨ buttons.getD 1 0 ≠ 0 ∨
            buttons.getD 2 0 ≠ 0 ∨ buttons.getD 3 0 ≠ 0 then
          let s := { s with buttons_in_use := true }
          let s := (st_process_manual_buttons cfg buttons s).1
          { s with acting_line_number := 0, steppers_enabled := true,
                   stepper_interrupt_enabled := true, mc_running := true }
        else
          let s :=
            if s.buttons_in_use then
              { s with buttons_in_use := false,
                       position_x := s.actual_position_x,
                       position_y := s.actual_position_y,
                       position_z := s.actual_position_z,
                       sync_count := s.sync_count + 1 }
            else s
          { s with out_bits := 0, stepper_interrupt_enabled := false,
                   steppers_enabled := false, mc_running := false }
  let s :=
    match s.current_block with
    | none => s
    | some i =>
      let blk := s.block_buffer i
      let s := { s with mc_running := true, out_bits := blk.direction_bits }
      let s :=
        if blk.mode = SM_RUN then
          let r := st_run_axes blk s.counter_x s.counter_y s.counter_z
            s.actual_position_x s.actual_position_y s.actual_position_z
          { s with counter_x := r.1, counter_y := r.2.1, counter_z := r.2.2.1,
                   actual_position_x := r.2.2.2.1,
                   actual_position_y := r.2.2.2.2.1,
                   actual_position_z := r.2.2.2.2.2.1,
                   out_bits := r.2.2.2.2.2.2 }
        else s
      let it := (s.iterations + 4294967295) % 4294967296
      if it = 0 then
        { s with iterations := it, current_block := none,
                 block_buffer_tail := (s.block_buffer_tail + 1) % BLOCK_BUFFER_SIZE }
      else { s with iterations := it }
  { s with out_bits := s.out_bits ^^^ cfg.invert_mask }

/-- n consecutive invocations of the stepper driver interrupt. -/
def st_ticks (cfg : Settings) (buttons : List Int) : Nat → StState → StState
  | 0, s => s
  | n + 1, s => st_tick cfg buttons (st_ticks cfg buttons n s)

/-- Number of ticks among the first n, starting from state s, whose computed
output asserts the given step bit.  out_bits is stored already XORed with the
pin-inversion mask (stepper.c line 386), so the mask is XORed away before
testing the logical step bit. -/
def countStepsOn (cfg : Settings) (buttons : List Int) (bit n : Nat) (s : StState) : Nat :=
  (List.range n).countP
    (fun k => ((st_ticks cfg buttons (k + 1) s).out_bits ^^^ cfg.invert_mask).testBit bit)

/-- Modelled from the spec: is_running reflects the mc_running flag that the
handler sets while stepping or jogging and clears on idle (the flag itself
lives in motion_control.c, outside the given source). -/
def is_running (s : StState) : Bool :=
  s.mc_running

/-- The quiescent module state: cleared variables, empty buffer, as after
power-up once st_init has run (st_init additionally programs the timer to a
lazy 20000 microsecond default, reflected in the timer fields). -/
def initialState : StState :=
  { out_bits := 0, current_block := none, counter_x := 0, counter_y := 0, counter_z := 0,
    iterations := 0, old_direction_bits := 0,
    block_buffer := fun _ => default, block_buffer_head := 0, block_buffer_tail := 0,
    actual_position_x := 0, actual_position_y := 0, actual_position_z := 0,
    position_x := 0, position_y := 0, position_z := 0,
    buttons_in_use := false, mc_running := false, acting_line_number := 0,
    st_current_mode := SM_RUN, stepper_interrupt_enabled := false,
    steppers_enabled := true,
    timer_prescaler := (config_step_timer 20000).1,
    timer_ceiling := (config_step_timer 20000).2,
    stepping_port := 0, sync_count := 0 }

/-- Abstract per-axis Bresenham trace: the counter, the number of step
pulses emitted so far and the absolute position of one axis. -/
structure AxisTrace where
  counter : Int
  emitted : Nat
  pos : Int
deriving DecidableEq, Repr

/-- One abstract Bresenham iteration for a single axis, the arithmetic core
of the per-axis update of the interrupt handler: accumulate, emit and
rebalance on overflow past zero, move the position by one in the direction
d. -/
def axisIter (stepsv maxs : Nat) (d : Bool) (a : AxisTrace) : AxisTrace :=
  let c := a.counter + (stepsv : Int)
  if 0 < c then
    { counter := c - (maxs : Int), emitted := a.emitted + 1,
      pos := if d then a.pos - 1 else a.pos + 1 }
  else
    { a with counter := c }

/-- n abstract Bresenham iterations of one axis. -/
def axisRun (stepsv maxs : Nat) (d : Bool) : Nat → AxisTrace → AxisTrace
  | 0, a => a
  | n + 1, a => axisIter stepsv maxs d (axisRun stepsv maxs d n a)

/-- The Bresenham counter start value of a block load (stepper.c line 299):
minus half the maximum step count. -/
def counterInit (maxs : Nat) : Int :=
  -((maxs >>> 1 : Nat) : Int)

/-- A settings snapshot used by the concrete witness states: X backlash of 2
steps, no inversion. -/
def cfgW : Settings :=
  { backlash_x_count := 2, backlash_y_count := 0, backlash_z_count := 0,
    invert_mask := 0, pulse_microseconds := 30 }

/-- No operator input on any of the four buttons. -/
def btn0 : List Int := [0, 0, 0, 0]

/-- Witness block: the spec's Bresenham example, steps (3, 5, 0) with
maximum 5, X running in the negative direction. -/
def bW : Block :=
  { steps_x := 3, steps_y := 5, steps_z := 0, pos_x := 10, pos_y := 20, pos_z := 30,
    maximum_steps := 5, direction_bits := 1 <<< X_DIRECTION_BIT, rate := 100,
    backlash := false, line_number := 1, mode := SM_RUN }

/-- Witness state: bW queued as the only block. -/
def sW : StState :=
  { initialState with
    block_buffer := fun k => if k = 0 then bW else default,
    block_buffer_head := 1 }

/-- A one-tick Run block moving X negatively, for the Halt-tick scenario. -/
def bA : Block :=
  { steps_x := 1, steps_y := 0, steps_z := 0, pos_x := 0, pos_y := 0, pos_z := 0,
    maximum_steps := 1, direction_bits := 1 <<< X_DIRECTION_BIT, rate := 100,
    backlash := false, line_number := 1, mode := SM_RUN }

/-- A two-tick Halt block as st_buffer_delay writes it into a fresh slot:
only backlash, line_number, maximum_steps, rate and mode are assigned, so
direction_bits keeps the slot's stale value (0 in a fresh buffer). -/
def bH : Block :=
  { (default : Block) with maximum_steps := 2, rate := 1000, mode := SM_HALT }

/-- Witness state for the Halt-tick scenario: bA then bH queued. -/
def s8 : StState :=
  { initialState with
    block_buffer := fun k => if k = 0 then bA else if k = 1 then bH else default,
    block_buffer_head := 2 }

/-- Witness state for the stop path: mid-run flags set and a nonzero
actual position. -/
def sR : StState :=
  { sW with mc_running := true, actual_position_x := 42, actual_position_y := -7,
            actual_position_z := 3 }

/-- Witness state with the Halt block bH current and two iterations left, as
after the first tick that pops it. -/
def sH : StState :=
  { s8 with current_block := some 1, iterations := 2, st_current_mode := SM_HALT,
            out_bits := 36, counter_x := 5, counter_y := -2, counter_z := 0,
            actual_position_x := 11, actual_position_y := 12, actual_position_z := 13 }

/-- The per-axis Bresenham trace at block load: counter at counterInit, no
pulses emitted, position at the block's start position p. -/
def axis0 (b : Block) (p : Int) : AxisTrace :=
  ⟨counterInit b.maximum_steps, 0, p⟩

/-- The correspondence between the engine state after k ticks (1 ≤ k ≤
maximum_steps) that start by loading the Run block b from the tail of the
queue, and the three abstract per-axis Bresenham traces. -/
def runInv (cfg : Settings) (buttons : List Int) (s : StState) (b : Block) (k : Nat) : Prop :=
  let t := st_ticks cfg buttons k s
  let ax := axisRun b.steps_x b.maximum_steps
    (b.direction_bits.testBit X_DIRECTION_BIT) k (axis0 b b.pos_x)
  let ay := axisRun b.steps_y b.maximum_steps
    (b.direction_bits.testBit Y_DIRECTION_BIT) k (axis0 b b.pos_y)
  let az := axisRun b.steps_z b.maximum_steps
    (b.direction_bits.testBit Z_DIRECTION_BIT) k (axis0 b b.pos_z)
  t.counter_x = ax.counter ∧ t.counter_y = ay.counter ∧ t.counter_z = az.counter ∧
  t.actual_position_x = ax.pos ∧ t.actual_position_y = ay.pos ∧
  t.actual_position_z = az.pos ∧
  countStepsOn cfg buttons X_STEP_BIT k s = ax.emitted ∧
  countStepsOn cfg buttons Y_STEP_BIT k s = ay.emitted ∧
  countStepsOn cfg buttons Z_STEP_BIT k s = az.emitted ∧
  t.iterations = b.maximum_steps - k ∧
  t.current_block = (if k < b.maximum_steps then some s.block_buffer_tail else none) ∧
  t.block_buffer = s.block_buffer ∧
  t.block_buffer_head = s.block_buffer_head ∧
  t.block_buffer_tail = (if k < b.maximum_steps then s.block_buffer_tail
                         else (s.block_buffer_tail + 1) % BLOCK_BUFFER_SIZE) ∧
  t.buttons_in_use = s.buttons_in_use ∧
  t.sync_count = s.sync_count ∧
  t.position_x = s.position_x ∧ t.position_y = s.position_y ∧ t.position_z = s.position_z

/-! Helper lemmas. -/

theorem testBit_one_shiftLeft (k j : Nat) : ((1 <<< k) : Nat).testBit j = decide (k = j) := by
  simp [Nat.shiftLeft_eq, Nat.testBit_two_pow]

theorem no_step_bit_x {b : Nat} (h : b &&& STEP_MASK = 0) : b.testBit X_STEP_BIT = false := by
  have hx := congrArg (fun n => n.testBit X_STEP_BIT) h
  simp only [Nat.testBit_land] at hx
  rw [show STEP_MASK.testBit X_STEP_BIT = true from rfl,
      show Nat.testBit 0 X_STEP_BIT = false from rfl, Bool.and_true] at hx
  exact hx

theorem no_step_bit_y {b : Nat} (h : b &&& STEP_MASK = 0) : b.testBit Y_STEP_BIT = false := by
  have hx := congrArg (fun n => n.testBit Y_STEP_BIT) h
  simp only [Nat.testBit_land] at hx
  rw [show STEP_MASK.testBit Y_STEP_BIT = true from rfl,
      show Nat.testBit 0 Y_STEP_BIT = false from rfl, Bool.and_true] at hx
  exact hx

theorem no_step_bit_z {b : Nat} (h : b &&& STEP_MASK = 0) : b.testBit Z_STEP_BIT = false := by
  have hx := congrArg (fun n => n.testBit Z_STEP_BIT) h
  simp only [Nat.testBit_land] at hx
  rw [show STEP_MASK.testBit Z_STEP_BIT = true from rfl,
      show Nat.testBit 0 Z_STEP_BIT = false from rfl, Bool.and_true] at hx
  exact hx

theorem countStepsOn_succ (cfg : Settings) (buttons : List Int) (bit n : Nat) (s : StState) :
    countStepsOn cfg buttons bit (n + 1) s =
      countStepsOn cfg buttons bit n s +
        (if ((st_ticks cfg buttons (n + 1) s).out_bits ^^^ cfg.invert_mask).testBit bit
         then 1 else 0) := by
  unfold countStepsOn
  simp only [List.range_succ, List.countP_append, List.countP_singleton]

theorem counterInit_bounds (M : Nat) (hM : 1 ≤ M) :
    -(M : Int) < counterInit M ∧ counterInit M ≤ 0 := by
  unfold counterInit
  have h2 : M >>> 1 = M / 2 := by simp [Nat.shiftRight_one]
  rw [h2]
  omega

theorem axisRun_inv (sv M : Nat) (d : Bool) (hs : sv ≤ M) (hM : 1 ≤ M)
    (c0 p0 : Int) (hl : -(M : Int) < c0) (hr : c0 ≤ 0) (n : Nat) :
    -(M : Int) < (axisRun sv M d n ⟨c0, 0, p0⟩).counter ∧
    (axisRun sv M d n ⟨c0, 0, p0⟩).counter ≤ 0 ∧
    (axisRun sv M d n ⟨c0, 0, p0⟩).counter =
      c0 + (n : Int) * (sv : Int) -
        ((axisRun sv M d n ⟨c0, 0, p0⟩).emitted : Int) * (M : Int) ∧
    (axisRun sv M d n ⟨c0, 0, p0⟩).pos =
      p0 + (if d then -(((axisRun sv M d n ⟨c0, 0, p0⟩).emitted : Int))
            else ((axisRun sv M d n ⟨c0, 0, p0⟩).emitted : Int)) ∧
    (axisRun sv M d n ⟨c0, 0, p0⟩).emitted ≤ n := by
  have hs' : (sv : Int) ≤ (M : Int) := by exact_mod_cast hs
  have hsv0 : (0 : Int) ≤ (sv : Int) := by positivity
  induction n with
  | zero => simp [axisRun]; omega
  | succ n ih =>
    obtain ⟨ih1, ih2, ih3, ih4, ih5⟩ := ih
    have hrun : axisRun sv M d (n + 1) (⟨c0, 0, p0⟩ : AxisTrace) =
        axisIter sv M d (axisRun sv M d n ⟨c0, 0, p0⟩) := rfl
    set a := axisRun sv M d n (⟨c0, 0, p0⟩ : AxisTrace) with ha
    rw [hrun]
    unfold axisIter
    by_cases hc : (0 : Int) < a.counter + (sv : Int)
    · simp only [hc, if_true]
      refine ⟨by linarith, by linarith, ?_, ?_, by omega⟩
      · push_cast
        linear_combination ih3
      · rcases d with _ | _ <;> simp_all <;> push_cast <;> linarith
    · simp only [hc, if_false]
      refine ⟨by linarith, by linarith, ?_, ih4, by omega⟩
      push_cast
      linear_combination ih3

theorem axisRun_final (sv M : Nat) (d : Bool) (hs : sv ≤ M) (hM : 1 ≤ M)
    (c0 p0 : Int) (hl : -(M : Int) < c0) (hr : c0 ≤ 0) :
    (axisRun sv M d M ⟨c0, 0, p0⟩).emitted = sv ∧
    (axisRun sv M d M ⟨c0, 0, p0⟩).pos =
      p0 + (if d then -(sv : Int) else (sv : Int)) := by
  obtain ⟨h1, h2, h3, h4, _⟩ := axisRun_inv sv M d hs hM c0 p0 hl hr M
  set a := axisRun sv M d M (⟨c0, 0, p0⟩ : AxisTrace)
  have key : (M : Int) * ((sv : Int) - (a.emitted : Int)) = a.counter - c0 := by
    rw [h3]; ring
  have hM' : (0 : Int) < (M : Int) := by exact_mod_cast hM
  have hemit : sv = a.emitted := by
    rcases lt_trichotomy ((sv : Int) - (a.emitted : Int)) 0 with hlt | heq | hgt
    · have hle : (sv : Int) - (a.emitted : Int) ≤ -1 := by omega
      nlinarith
    · have : (sv : Int) = (a.emitted : Int) := by omega
      exact_mod_cast this
    · have hge : (1 : Int) ≤ (sv : Int) - (a.emitted : Int) := by omega
      nlinarith
  refine ⟨hemit.symm, ?_⟩
  rw [h4, ← hemit]

theorem st_run_axes_spec (b : Block) (hdb : b.direction_bits &&& STEP_MASK = 0)
    (cx cy cz px py pz : Int) (ex ey ez : Nat) :
    (st_run_axes b cx cy cz px py pz).1 =
      (axisIter b.steps_x b.maximum_steps (b.direction_bits.testBit X_DIRECTION_BIT)
        ⟨cx, ex, px⟩).counter ∧
    (st_run_axes b cx cy cz px py pz).2.1 =
      (axisIter b.steps_y b.maximum_steps (b.direction_bits.testBit Y_DIRECTION_BIT)
        ⟨cy, ey, py⟩).counter ∧
    (st_run_axes b cx cy cz px py pz).2.2.1 =
      (axisIter b.steps_z b.maximum_steps (b.direction_bits.testBit Z_DIRECTION_BIT)
        ⟨cz, ez, pz⟩).counter ∧
    (st_run_axes b cx cy cz px py pz).2.2.2.1 =
      (axisIter b.steps_x b.maximum_steps (b.direction_bits.testBit X_DIRECTION_BIT)
        ⟨cx, ex, px⟩).pos ∧
    (st_run_axes b cx cy cz px py pz).2.2.2.2.1 =
      (axisIter b.steps_y b.maximum_steps (b.direction_bits.testBit Y_DIRECTION_BIT)
        ⟨cy, ey, py⟩).pos ∧
    (st_run_axes b cx cy cz px py pz).2.2.2.2.2.1 =
      (axisIter b.steps_z b.maximum_steps (b.direction_bits.testBit Z_DIRECTION_BIT)
        ⟨cz, ez, pz⟩).pos ∧
    (st_run_axes b cx cy cz px py pz).2.2.2.2.2.2.testBit X_STEP_BIT =
      decide (0 < cx + (b.steps_x : Int)) ∧
    (st_run_axes b cx cy cz px py pz).2.2.2.2.2.2.testBit Y_STEP_BIT =
      decide (0 < cy + (b.steps_y : Int)) ∧
    (st_run_axes b cx cy cz px py pz).2.2.2.2.2.2.testBit Z_STEP_BIT =
      decide (0 < cz + (b.steps_z : Int)) := by
  have hx : b.direction_bits.testBit 2 = false := no_step_bit_x hdb
  have hy : b.direction_bits.testBit 3 = false := no_step_bit_y hdb
  have hz : b.direction_bits.testBit 4 = false := no_step_bit_z hdb
  have t42 : Nat.testBit 4 2 = true := rfl
  have t43 : Nat.testBit 4 3 = false := rfl
  have t44 : Nat.testBit 4 4 = false := rfl
  have t45 : Nat.testBit 4 5 = false := rfl
  have t46 : Nat.testBit 4 6 = false := rfl
  have t47 : Nat.testBit 4 7 = false := rfl
  have t82 : Nat.testBit 8 2 = false := rfl
  have t83 : Nat.testBit 8 3 = true := rfl
  have t84 : Nat.testBit 8 4 = false := rfl
  have t85 : Nat.testBit 8 5 = false := rfl
  have t86 : Nat.testBit 8 6 = false := rfl
  have t87 : Nat.testBit 8 7 = false := rfl
  have t162 : Nat.testBit 16 2 = false := rfl
  have t163 : Nat.testBit 16 3 = false := rfl
  have t164 : Nat.testBit 16 4 = true := rfl
  have t165 : Nat.testBit 16 5 = false := rfl
  have t166 : Nat.testBit 16 6 = false := rfl
  have t167 : Nat.testBit 16 7 = false := rfl
  rcases hdx : b.direction_bits.testBit 5 <;>
    rcases hdy : b.direction_bits.testBit 6 <;>
      rcases hdz : b.direction_bits.testBit 7 <;>
        by_cases hex : (0 : Int) < cx + (b.steps_x : Int) <;>
          by_cases hey : (0 : Int) < cy + (b.steps_y : Int) <;>
            by_cases hez : (0 : Int) < cz + (b.steps_z : Int) <;>
              simp [st_run_axes, axis_step, axisIter, hex, hey, hez, Nat.testBit_lor,
                hx, hy, hz, hdx, hdy, hdz, t42, t43, t44, t45, t46, t47,
                t82, t83, t84, t85, t86, t87, t162, t163, t164, t165, t166, t167,
                X_STEP_BIT, Y_STEP_BIT, Z_STEP_BIT,
                X_DIRECTION_BIT, Y_DIRECTION_BIT, Z_DIRECTION_BIT]

theorem st_tick_load_run (cfg : Settings) (buttons : List Int) (s : StState) (b : Block)
    (hcb : s.current_block = none)
    (hne : s.block_buffer_head ≠ s.block_buffer_tail)
    (hblk : s.block_buffer s.block_buffer_tail = b)
    (hmode : b.mode = SM_RUN) (hM1 : 1 ≤ b.maximum_steps) (hM2 : b.maximum_steps < 2 ^ 32) :
    (st_tick cfg buttons s).counter_x =
      (st_run_axes b (counterInit b.maximum_steps) (counterInit b.maximum_steps)
        (counterInit b.maximum_steps) b.pos_x b.pos_y b.pos_z).1 ∧
    (st_tick cfg buttons s).counter_y =
      (st_run_axes b (counterInit b.maximum_steps) (counterInit b.maximum_steps)
        (counterInit b.maximum_steps) b.pos_x b.pos_y b.pos_z).2.1 ∧
    (st_tick cfg buttons s).counter_z =
      (st_run_axes b (counterInit b.maximum_steps) (counterInit b.maximum_steps)
        (counterInit b.maximum_steps) b.pos_x b.pos_y b.pos_z).2.2.1 ∧
    (st_tick cfg buttons s).actual_position_x =
      (st_run_axes b (counterInit b.maximum_steps) (counterInit b.maximum_steps)
        (counterInit b.maximum_steps) b.pos_x b.pos_y b.pos_z).2.2.2.1 ∧
    (st_tick cfg buttons s).actual_position_y =
      (st_run_axes b (counterInit b.maximum_steps) (counterInit b.maximum_steps)
        (counterInit b.maximum_steps) b.pos_x b.pos_y b.pos_z).2.2.2.2.1 ∧
    (st_tick cfg buttons s).actual_position_z =
      (st_run_axes b (counterInit b.maximum_steps) (counterInit b.maximum_steps)
        (counterInit b.maximum_steps) b.pos_x b.pos_y b.pos_z).2.2.2.2.2.1 ∧
    (st_tick cfg buttons s).out_bits =
      (st_run_axes b (counterInit b.maximum_steps) (counterInit b.maximum_steps)
        (counterInit b.maximum_steps) b.pos_x b.pos_y b.pos_z).2.2.2.2.2.2 ^^^
        cfg.invert_mask ∧
    (st_tick cfg buttons s).iterations = b.maximum_steps - 1 ∧
    (st_tick cfg buttons s).current_block =
      (if b.maximum_steps - 1 = 0 then none else some s.block_buffer_tail) ∧
    (st_tick cfg buttons s).block_buffer = s.block_buffer ∧
    (st_tick cfg buttons s).block_buffer_head = s.block_buffer_head ∧
    (st_tick cfg buttons s).block_buffer_tail =
      (if b.maximum_steps - 1 = 0 then (s.block_buffer_tail + 1) % BLOCK_BUFFER_SIZE
       else s.block_buffer_tail) ∧
    (st_tick cfg buttons s).buttons_in_use = s.buttons_in_use ∧
    (st_tick cfg buttons s).sync_count = s.sync_count ∧
    (st_tick cfg buttons s).position_x = s.position_x ∧
    (st_tick cfg buttons s).position_y = s.position_y ∧
    (st_tick cfg buttons s).position_z = s.position_z := by
  have hdec : (b.maximum_steps + 4294967295) % 4294967296 = b.maximum_steps - 1 := by omega
  by_cases hM : b.maximum_steps - 1 = 0 <;>
    simp [st_tick, hcb, hne, hblk, hmode, hdec, hM, counterInit]

theorem st_tick_run_step (cfg : Settings) (buttons : List Int) (s : StState) (i : Nat)
    (b : Block)
    (hcb : s.current_block = some i)
    (hblk : s.block_buffer i = b)
    (hmode : b.mode = SM_RUN)
    (hit1 : 1 ≤ s.iterations) (hit2 : s.iterations < 2 ^ 32) :
    (st_tick cfg buttons s).counter_x =
      (st_run_axes b s.counter_x s.counter_y s.counter_z
        s.actual_position_x s.actual_position_y s.actual_position_z).1 ∧
    (st_tick cfg buttons s).counter_y =
      (st_run_axes b s.counter_x s.counter_y s.counter_z
        s.actual_position_x s.actual_position_y s.actual_position_z).2.1 ∧
    (st_tick cfg buttons s).counter_z =
      (st_run_axes b s.counter_x s.counter_y s.counter_z
        s.actual_position_x s.actual_position_y s.actual_position_z).2.2.1 ∧
    (st_tick cfg buttons s).actual_position_x =
      (st_run_axes b s.counter_x s.counter_y s.counter_z
        s.actual_position_x s.actual_position_y s.actual_position_z).2.2.2.1 ∧
    (st_tick cfg buttons s).actual_position_y =
      (st_run_axes b s.counter_x s.counter_y s.counter_z
        s.actual_position_x s.actual_position_y s.actual_position_z).2.2.2.2.1 ∧
    (st_tick cfg buttons s).actual_position_z =
      (st_run_axes b s.counter_x s.counter_y s.counter_z
        s.actual_position_x s.actual_position_y s.actual_position_z).2.2.2.2.2.1 ∧
    (st_tick cfg buttons s).out_bits =
      (st_run_axes b s.counter_x s.counter_y s.counter_z
        s.actual_position_x s.actual_position_y s.actual_position_z).2.2.2.2.2.2 ^^^
        cfg.invert_mask ∧
    (st_tick cfg buttons s).iterations = s.iterations - 1 ∧
    (st_tick cfg buttons s).current_block =
      (if s.iterations - 1 = 0 then none else some i) ∧
    (st_tick cfg buttons s).block_buffer = s.block_buffer ∧
    (st_tick cfg buttons s).block_buffer_head = s.block_buffer_head ∧
    (st_tick cfg buttons s).block_buffer_tail =
      (if s.iterations - 1 = 0 then (s.block_buffer_tail + 1) % BLOCK_BUFFER_SIZE
       else s.block_buffer_tail) ∧
    (st_tick cfg buttons s).buttons_in_use = s.buttons_in_use ∧
    (st_tick cfg buttons s).sync_count = s.sync_count ∧
    (st_tick cfg buttons s).position_x = s.position_x ∧
    (st_tick cfg buttons s).position_y = s.position_y ∧
    (st_tick cfg buttons s).position_z = s.position_z := by
  have hdec : (s.iterations + 4294967295) % 4294967296 = s.iterations - 1 := by omega
  by_cases hM : s.iterations - 1 = 0 <;>
    simp [st_tick, hcb, hblk, hmode, hdec, hM]

theorem st_tick_idle (cfg : Settings) (buttons : List Int) (s : StState)
    (hcb : s.current_block = none)
    (hq : s.block_buffer_head = s.block_buffer_tail)
    (hb0 : buttons.getD 0 0 = 0) (hb1 : buttons.getD 1 0 = 0)
    (hb2 : buttons.getD 2 0 = 0) (hb3 : buttons.getD 3 0 = 0) :
    (st_tick cfg buttons s).mc_running = false ∧
    (st_tick cfg buttons s).current_block = none ∧
    (st_tick cfg buttons s).buttons_in_use = false ∧
    (st_tick cfg buttons s).sync_count =
      s.sync_count + (if s.buttons_in_use then 1 else 0) ∧
    (st_tick cfg buttons s).actual_position_x = s.actual_position_x ∧
    (st_tick cfg buttons s).actual_position_y = s.actual_position_y ∧
    (st_tick cfg buttons s).actual_position_z = s.actual_position_z ∧
    (st_tick cfg buttons s).position_x =
      (if s.buttons_in_use then s.actual_position_x else s.position_x) ∧
    (st_tick cfg buttons s).position_y =
      (if s.buttons_in_use then s.actual_position_y else s.position_y) ∧
    (st_tick cfg buttons s).position_z =
      (if s.buttons_in_use then s.actual_position_z else s.position_z) ∧
    (st_tick cfg buttons s).block_buffer = s.block_buffer ∧
    (st_tick cfg buttons s).block_buffer_head = s.block_buffer_head ∧
    (st_tick cfg buttons s).block_buffer_tail = s.block_buffer_tail ∧
    (st_tick cfg buttons s).counter_x = s.counter_x ∧
    (st_tick cfg buttons s).counter_y = s.counter_y ∧
    (st_tick cfg buttons s).counter_z = s.counter_z ∧
    (st_tick cfg buttons s).stepper_interrupt_enabled = false := by
  have hb0' : buttons[0]?.getD 0 = 0 := by simpa using hb0
  have hb1' : buttons[1]?.getD 0 = 0 := by simpa using hb1
  have hb2' : buttons[2]?.getD 0 = 0 := by simpa using hb2
  have hb3' : buttons[3]?.getD 0 = 0 := by simpa using hb3
  by_cases hbu : s.buttons_in_use <;>
    simp [st_tick, hcb, hq, hb0', hb1', hb2', hb3', hbu]

theorem countStepsOn_zero (cfg : Settings) (buttons : List Int) (bit : Nat) (s : StState) :
    countStepsOn cfg buttons bit 0 s = 0 := by
  simp [countStepsOn]

theorem st_run_sim (cfg : Settings) (buttons : List Int) (s : StState) (b : Block)
    (hcb : s.current_block = none)
    (hne : s.block_buffer_head ≠ s.block_buffer_tail)
    (hblk : s.block_buffer s.block_buffer_tail = b)
    (hmode : b.mode = SM_RUN)
    (hM1 : 1 ≤ b.maximum_steps) (hM2 : b.maximum_steps < 2 ^ 32)
    (hdb : b.direction_bits &&& STEP_MASK = 0) :
    ∀ k, 1 ≤ k → k ≤ b.maximum_steps → runInv cfg buttons s b k := by
  intro k
  induction k with
  | zero => intro h1 _; omega
  | succ k ih =>
    intro _ hk2
    rcases Nat.lt_or_ge k 1 with hk0 | hk0
    · -- first tick: the block is loaded and its first iteration executes
      have hk : k = 0 := by omega
      subst hk
      obtain ⟨l1, l2, l3, l4, l5, l6, l7, l8, l9, l10, l11, l12, l13, l14, l15, l16, l17⟩ :=
        st_tick_load_run cfg buttons s b hcb hne hblk hmode hM1 hM2
      obtain ⟨p1, p2, p3, p4, p5, p6, p7, p8, p9⟩ :=
        st_run_axes_spec b hdb (counterInit b.maximum_steps) (counterInit b.maximum_steps)
          (counterInit b.maximum_steps) b.pos_x b.pos_y b.pos_z 0 0 0
      have hone : st_ticks cfg buttons 1 s = st_tick cfg buttons s := rfl
      have hxor : (st_tick cfg buttons s).out_bits ^^^ cfg.invert_mask =
          (st_run_axes b (counterInit b.maximum_steps) (counterInit b.maximum_steps)
            (counterInit b.maximum_steps) b.pos_x b.pos_y b.pos_z).2.2.2.2.2.2 := by
        rw [l7, Nat.xor_assoc, Nat.xor_self, Nat.xor_zero]
      unfold runInv
      refine ⟨?_, ?_, ?_, ?_, ?_, ?_, ?_, ?_, ?_, ?_, ?_, ?_, ?_, ?_, ?_, ?_, ?_, ?_, ?_⟩
      · exact l1.trans p1
      · exact l2.trans p2
      · exact l3.trans p3
      · exact l4.trans p4
      · exact l5.trans p5
      · exact l6.trans p6
      · rw [countStepsOn_succ, countStepsOn_zero, hone, hxor, p7,
            show axisRun b.steps_x b.maximum_steps (b.direction_bits.testBit X_DIRECTION_BIT)
                (0 + 1) (axis0 b b.pos_x) =
              axisIter b.steps_x b.maximum_steps (b.direction_bits.testBit X_DIRECTION_BIT)
                (axis0 b b.pos_x) from rfl]
        by_cases hb : (0 : Int) < counterInit b.maximum_steps + (b.steps_x : Int) <;>
          simp [axisIter, axis0, hb]
      · rw [countStepsOn_succ, countStepsOn_zero, hone, hxor, p8,
            show axisRun b.steps_y b.maximum_steps (b.direction_bits.testBit Y_DIRECTION_BIT)
                (0 + 1) (axis0 b b.pos_y) =
              axisIter b.steps_y b.maximum_steps (b.direction_bits.testBit Y_DIRECTION_BIT)
                (axis0 b b.pos_y) from rfl]
        by_cases hb : (0 : Int) < counterInit b.maximum_steps + (b.steps_y : Int) <;>
          simp [axisIter, axis0, hb]
      · rw [countStepsOn_succ, countStepsOn_zero, hone, hxor, p9,
            show axisRun b.steps_z b.maximum_steps (b.direction_bits.testBit Z_DIRECTION_BIT)
                (0 + 1) (axis0 b b.pos_z) =
              axisIter b.steps_z b.maximum_steps (b.direction_bits.testBit Z_DIRECTION_BIT)
                (axis0 b b.pos_z) from rfl]
        by_cases hb : (0 : Int) < counterInit b.maximum_steps + (b.steps_z : Int) <;>
          simp [axisIter, axis0, hb]
      · exact l8
      · rcases Nat.lt_or_ge 1 b.maximum_steps with h | h
        · rw [hone, l9, if_neg (by omega), if_pos h]
        · rw [hone, l9, if_pos (by omega), if_neg (by omega)]
      · exact l10
      · exact l11
      · rcases Nat.lt_or_ge 1 b.maximum_steps with h | h
        · rw [hone, l12, if_neg (by omega), if_pos h]
        · rw [hone, l12, if_pos (by omega), if_neg (by omega)]
      · exact l13
      · exact l14
      · exact l15
      · exact l16
      · exact l17
    · -- subsequent tick: one more Bresenham iteration of the current block
      obtain ⟨i1, i2, i3, i4, i5, i6, i7, i8, i9, i10, i11, i12, i13, i14, i15, i16,
        i17, i18, i19⟩ := ih hk0 (by omega)
      have hkM : k < b.maximum_steps := by omega
      have hcbk : (st_ticks cfg buttons k s).current_block = some s.block_buffer_tail := by
        rw [i11, if_pos hkM]
      have hblkk : (st_ticks cfg buttons k s).block_buffer s.block_buffer_tail = b := by
        rw [i12, hblk]
      have hit1k : 1 ≤ (st_ticks cfg buttons k s).iterations := by rw [i10]; omega
      have hit2k : (st_ticks cfg buttons k s).iterations < 2 ^ 32 := by rw [i10]; omega
      obtain ⟨r1, r2, r3, r4, r5, r6, r7, r8, r9, r10, r11, r12, r13, r14, r15, r16, r17⟩ :=
        st_tick_run_step cfg buttons (st_ticks cfg buttons k s) s.block_buffer_tail b
          hcbk hblkk hmode hit1k hit2k
      rw [i1, i2, i3, i4, i5, i6] at r1 r2 r3 r4 r5 r6 r7
      obtain ⟨p1, p2, p3, p4, p5, p6, p7, p8, p9⟩ :=
        st_run_axes_spec b hdb
          (axisRun b.steps_x b.maximum_steps
            (b.direction_bits.testBit X_DIRECTION_BIT) k (axis0 b b.pos_x)).counter
          (axisRun b.steps_y b.maximum_steps
            (b.direction_bits.testBit Y_DIRECTION_BIT) k (axis0 b b.pos_y)).counter
          (axisRun b.steps_z b.maximum_steps
            (b.direction_bits.testBit Z_DIRECTION_BIT) k (axis0 b b.pos_z)).counter
          (axisRun b.steps_x b.maximum_steps
            (b.direction_bits.testBit X_DIRECTION_BIT) k (axis0 b b.pos_x)).pos
          (axisRun b.steps_y b.maximum_steps
            (b.direction_bits.testBit Y_DIRECTION_BIT) k (axis0 b b.pos_y)).pos
          (axisRun b.steps_z b.maximum_steps
            (b.direction_bits.testBit Z_DIRECTION_BIT) k (axis0 b b.pos_z)).pos
          (axisRun b.steps_x b.maximum_steps
            (b.direction_bits.testBit X_DIRECTION_BIT) k (axis0 b b.pos_x)).emitted
          (axisRun b.steps_y b.maximum_steps
            (b.direction_bits.testBit Y_DIRECTION_BIT) k (axis0 b b.pos_y)).emitted
          (axisRun b.steps_z b.maximum_steps
            (b.direction_bits.testBit Z_DIRECTION_BIT) k (axis0 b b.pos_z)).emitted
      have hsucc : st_ticks cfg buttons (k + 1) s =
          st_tick cfg buttons (st_ticks cfg buttons k s) := rfl
      have hxor : (st_tick cfg buttons (st_ticks cfg buttons k s)).out_bits ^^^
            cfg.invert_mask =
          (st_run_axes b
            (axisRun b.steps_x b.maximum_steps
              (b.direction_bits.testBit X_DIRECTION_BIT) k (axis0 b b.pos_x)).counter
            (axisRun b.steps_y b.maximum_steps
              (b.direction_bits.testBit Y_DIRECTION_BIT) k (axis0 b b.pos_y)).counter
            (axisRun b.steps_z b.maximum_steps
              (b.direction_bits.testBit Z_DIRECTION_BIT) k (axis0 b b.pos_z)).counter
            (axisRun b.steps_x b.maximum_steps
              (b.direction_bits.testBit X_DIRECTION_BIT) k (axis0 b b.pos_x)).pos
            (axisRun b.steps_y b.maximum_steps
              (b.direction_bits.testBit Y_DIRECTION_BIT) k (axis0 b b.pos_y)).pos
            (axisRun b.steps_z b.maximum_steps
              (b.direction_bits.testBit Z_DIRECTION_BIT) k (axis0 b b.pos_z)).pos).2.2.2.2.2.2 := by
        rw [r7, Nat.xor_assoc, Nat.xor_self, Nat.xor_zero]
      unfold runInv
      refine ⟨?_, ?_, ?_, ?_, ?_, ?_, ?_, ?_, ?_, ?_, ?_, ?_, ?_, ?_, ?_, ?_, ?_, ?_, ?_⟩
      · exact r1.trans p1
      · exact r2.trans p2
      · exact r3.trans p3
      · exact r4.trans p4
      · exact r5.trans p5
      · exact r6.trans p6
      · rw [countStepsOn_succ, i7, hsucc, hxor, p7,
            show axisRun b.steps_x b.maximum_steps (b.direction_bits.testBit X_DIRECTION_BIT)
                (k + 1) (axis0 b b.pos_x) =
              axisIter b.steps_x b.maximum_steps (b.direction_bits.testBit X_DIRECTION_BIT)
                (axisRun b.steps_x b.maximum_steps (b.direction_bits.testBit X_DIRECTION_BIT) k
                  (axis0 b b.pos_x)) from rfl]
        by_cases hb : (0 : Int) < (axisRun b.steps_x b.maximum_steps
            (b.direction_bits.testBit X_DIRECTION_BIT) k (axis0 b b.pos_x)).counter +
            (b.steps_x : Int) <;>
          simp [axisIter, hb]
      · rw [countStepsOn_succ, i8, hsucc, hxor, p8,
            show axisRun b.steps_y b.maximum_steps (b.direction_bits.testBit Y_DIRECTION_BIT)
                (k + 1) (axis0 b b.pos_y) =
              axisIter b.steps_y b.maximum_steps (b.direction_bits.testBit Y_DIRECTION_BIT)
                (axisRun b.steps_y b.maximum_steps (b.direction_bits.testBit Y_DIRECTION_BIT) k
                  (axis0 b b.pos_y)) from rfl]
        by_cases hb : (0 : Int) < (axisRun b.steps_y b.maximum_steps
            (b.direction_bits.testBit Y_DIRECTION_BIT) k (axis0 b b.pos_y)).counter +
            (b.steps_y : Int) <;>
          simp [axisIter, hb]
      · rw [countStepsOn_succ, i9, hsucc, hxor, p9,
            show axisRun b.steps_z b.maximum_steps (b.direction_bits.testBit Z_DIRECTION_BIT)
                (k + 1) (axis0 b b.pos_z) =
              axisIter b.steps_z b.maximum_steps (b.direction_bits.testBit Z_DIRECTION_BIT)
                (axisRun b.steps_z b.maximum_steps (b.direction_bits.testBit Z_DIRECTION_BIT) k
                  (axis0 b b.pos_z)) from rfl]
        by_cases hb : (0 : Int) < (axisRun b.steps_z b.maximum_steps
            (b.direction_bits.testBit Z_DIRECTION_BIT) k (axis0 b b.pos_z)).counter +
            (b.steps_z : Int) <;>
          simp [axisIter, hb]
      · rw [hsucc, r8, i10]; omega
      · rcases Nat.lt_or_ge (k + 1) b.maximum_steps with h | h
        · rw [hsucc, r9, i10, if_neg (by omega), if_pos h]
        · rw [hsucc, r9, i10, if_pos (by omega), if_neg (by omega)]
      · exact r10.trans i12
      · exact r11.trans i13
      · rw [if_pos hkM] at i14
        rcases Nat.lt_or_ge (k + 1) b.maximum_steps with h | h
        · rw [hsucc, r12, i10, i14, if_neg (by omega), if_pos h]
        · rw [hsucc, r12, i10, i14, if_pos (by omega), if_neg (by omega)]
      · exact r13.trans i15
      · exact r14.trans i16
      · exact r15.trans i17
      · exact r16.trans i18
      · exact r17.trans i19

/-! Claim theorems. -/

/-- Claim C2: for every input microseconds, the Timer Rate Configurator maps
the (uint32-wrapped) tick count microseconds * ticks_per_microsecond to
exactly the five-tier ladder of the specification — (0, ticks) up to 2^16-1,
(1, ticks >>> 3) up to 2^19-1, (2, ticks >>> 6) up to 2^22-1, (3, ticks >>> 8)
up to 2^24-1, (4, ticks >>> 10) up to 2^26-1, and the clamp (4, 0xFFFF)
beyond — and in particular 1000 microseconds at 16 ticks/microsecond gives
tier 0 with ceiling 16000, and a tick count of 200000 (12500 microseconds)
gives tier 1 with ceiling 25000. -/
theorem C2_timer_ladder :
    (∀ microseconds : Nat, config_step_timer microseconds =
      spec_timer_ladder ((microseconds * TICKS_PER_MICROSECOND) % 4294967296)) ∧
    config_step_timer 1000 = (0, 16000) ∧
    config_step_timer 12500 = (1, 25000) := by
  refine ⟨fun microseconds => ?_, by decide, by decide⟩
  norm_num [config_step_timer, spec_timer_ladder]

/-- Claim C10 (code bug): on the manual-jog path the handler assigns
out_bits = current_block->direction_bits while current_block is null (the
only call site runs with an empty queue and a cleared current block), so the
None-access branch of a total embedding is reached — the claim that no read
through current_block occurs is contradicted by the code.  The value read is
discarded by the immediately following out_bits = 0 assignment. -/
theorem C10_null_read (cfg : Settings) (buttons : List Int) (s : StState)
    (h : s.current_block = none) :
    (st_process_manual_buttons cfg buttons s).2 = true := by
  simp [st_process_manual_buttons, h]

/-- Witness: the null read happens on a concrete idle state with the X jog
button pressed. -/
theorem C10_null_read_witness :
    (st_process_manual_buttons cfgW [1, 0, 0, 0] initialState).2 = true :=
  C10_null_read cfgW [1, 0, 0, 0] initialState rfl

/-- Claim C6: a zero-duration enqueue_delay writes no block, flushes the
whole queue (tail set to head, current block cleared), synchronizes the
upstream position store from actual_position, returns the rejected status,
and the engine reports not-running on its next invocation (the stop itself
does not touch the running flag; the first subsequent tick with no jog input
clears it). -/
theorem C6_zero_delay (cfg : Settings) (buttons : List Int) (ln : Int) (s : StState)
    (hb0 : buttons.getD 0 0 = 0) (hb1 : buttons.getD 1 0 = 0)
    (hb2 : buttons.getD 2 0 = 0) (hb3 : buttons.getD 3 0 = 0) :
    (st_buffer_delay 0 ln s).2 = false ∧
    (st_buffer_delay 0 ln s).1.block_buffer = s.block_buffer ∧
    (st_buffer_delay 0 ln s).1.block_buffer_head = s.block_buffer_head ∧
    (st_buffer_delay 0 ln s).1.block_buffer_tail = s.block_buffer_head ∧
    (st_buffer_delay 0 ln s).1.current_block = none ∧
    (st_buffer_delay 0 ln s).1.position_x = s.actual_position_x ∧
    (st_buffer_delay 0 ln s).1.position_y = s.actual_position_y ∧
    (st_buffer_delay 0 ln s).1.position_z = s.actual_position_z ∧
    is_running (st_tick cfg buttons (st_buffer_delay 0 ln s).1) = false := by
  refine ⟨rfl, rfl, rfl, rfl, rfl, rfl, rfl, rfl, ?_⟩
  exact (st_tick_idle cfg buttons (st_buffer_delay 0 ln s).1 rfl rfl hb0 hb1 hb2 hb3).1

/-- Witness for C6 on a concrete mid-run state. -/
theorem C6_zero_delay_witness :
    (st_buffer_delay 0 9 sR).2 = false ∧
    (st_buffer_delay 0 9 sR).1.position_x = 42 ∧
    (st_buffer_delay 0 9 sR).1.block_buffer_tail = 1 ∧
    is_running (st_tick cfgW btn0 (st_buffer_delay 0 9 sR).1) = false := by
  obtain ⟨h1, _, _, h4, _, h6, _, _, h9⟩ :=
    C6_zero_delay cfgW btn0 9 sR (by decide) (by decide) (by decide) (by decide)
  exact ⟨h1, h6, h4, h9⟩

/-- Claim C5 counterexample: a single queued Run block executes to
completion (5 ticks) and the queue drains with no jog input (tick 6, engine
reports not-running), yet the position-sync callback has fired zero times,
not exactly once as claimed — the drain-path synchronization is guarded by
the buttons_in_use flag, which is only set by jog activity. -/
theorem C5_counterexample :
    (st_ticks cfgW btn0 6 sW).current_block = none ∧
    (st_ticks cfgW btn0 6 sW).mc_running = false ∧
    (st_ticks cfgW btn0 6 sW).block_buffer_head =
      (st_ticks cfgW btn0 6 sW).block_buffer_tail ∧
    (st_ticks cfgW btn0 6 sW).sync_count = 0 := by
  refine ⟨by decide, by decide, by decide, by decide⟩

/-- Claim C7 counterexample: on jog input of magnitude 7 on X alone, the
timer is programmed with delay FULL_SPEED_DELAY <<< (8-7) = 198 microseconds
(a left shift), which differs from the claimed FULL_SPEED_DELAY >> (8-7);
and on input (8, 1, 0, 0) the timer ends programmed to the slower Y axis
(the last one processed), not to the fastest requested axis X. -/
theorem C7_counterexample :
    ((st_process_manual_buttons cfgW [7, 0, 0, 0] initialState).1.timer_prescaler,
     (st_process_manual_buttons cfgW [7, 0, 0, 0] initialState).1.timer_ceiling) =
      config_step_timer (FULL_SPEED_DELAY <<< (8 - 7)) ∧
    config_step_timer (FULL_SPEED_DELAY <<< (8 - 7)) ≠
      config_step_timer (FULL_SPEED_DELAY >>> (8 - 7)) ∧
    (st_process_manual_buttons cfgW [8, 1, 0, 0] initialState).1.timer_ceiling =
      (config_step_timer (FULL_SPEED_DELAY <<< (8 - 1))).2 ∧
    (config_step_timer (FULL_SPEED_DELAY <<< (8 - 1))).2 ≠
      (config_step_timer FULL_SPEED_DELAY).2 := by
  refine ⟨by decide, by decide, by decide, by decide⟩

/-- Claim C8 counterexample: tick 2 of this scenario executes the Halt block
(it becomes the current block, mode SM_HALT), yet the X direction output bit
changes from set to clear across that tick — st_buffer_delay leaves the
slot's direction_bits stale, and the handler still reloads out_bits from
them on every tick of a Halt block. -/
theorem C8_counterexample :
    (st_ticks cfgW btn0 2 s8).current_block = some 1 ∧
    (s8.block_buffer 1).mode = SM_HALT ∧
    (st_ticks cfgW btn0 2 s8).st_current_mode = SM_HALT ∧
    (st_ticks cfgW btn0 1 s8).out_bits.testBit X_DIRECTION_BIT = true ∧
    (st_ticks cfgW btn0 2 s8).out_bits.testBit X_DIRECTION_BIT = false := by
  refine ⟨by decide, by decide, by decide, by decide, by decide⟩

/-- Claim C1: for every Run block whose per-axis step counts satisfy
0 ≤ steps_i ≤ max_steps with max_steps ≥ 1 (its direction bitmask using only
direction-bit positions, as every enqueued block does), executing the
handler for max_steps consecutive ticks — the first of which loads the
block, initializing the Bresenham counters to -(max_steps >> 1) — emits each
axis's step bit exactly steps_i times, and actual_position[i] ends at the
block's start_position[i] plus steps_i if that axis's direction bit is
clear, minus steps_i if it is set. -/
theorem C1_bresenham_exact (cfg : Settings) (buttons : List Int) (s : StState) (b : Block)
    (hcb : s.current_block = none)
    (hne : s.block_buffer_head ≠ s.block_buffer_tail)
    (hblk : s.block_buffer s.block_buffer_tail = b)
    (hmode : b.mode = SM_RUN)
    (hM1 : 1 ≤ b.maximum_steps) (hM2 : b.maximum_steps < 2 ^ 32)
    (hsx : b.steps_x ≤ b.maximum_steps) (hsy : b.steps_y ≤ b.maximum_steps)
    (hsz : b.steps_z ≤ b.maximum_steps)
    (hdb : b.direction_bits &&& STEP_MASK = 0) :
    countStepsOn cfg buttons X_STEP_BIT b.maximum_steps s = b.steps_x ∧
    countStepsOn cfg buttons Y_STEP_BIT b.maximum_steps s = b.steps_y ∧
    countStepsOn cfg buttons Z_STEP_BIT b.maximum_steps s = b.steps_z ∧
    (st_ticks cfg buttons b.maximum_steps s).actual_position_x =
      b.pos_x + (if b.direction_bits.testBit X_DIRECTION_BIT then -(b.steps_x : Int)
                 else (b.steps_x : Int)) ∧
    (st_ticks cfg buttons b.maximum_steps s).actual_position_y =
      b.pos_y + (if b.direction_bits.testBit Y_DIRECTION_BIT then -(b.steps_y : Int)
                 else (b.steps_y : Int)) ∧
    (st_ticks cfg buttons b.maximum_steps s).actual_position_z =
      b.pos_z + (if b.direction_bits.testBit Z_DIRECTION_BIT then -(b.steps_z : Int)
                 else (b.steps_z : Int)) := by
  obtain ⟨i1, i2, i3, i4, i5, i6, i7, i8, i9, _⟩ :=
    st_run_sim cfg buttons s b hcb hne hblk hmode hM1 hM2 hdb b.maximum_steps hM1 le_rfl
  obtain ⟨hc0l, hc0r⟩ := counterInit_bounds b.maximum_steps hM1
  obtain ⟨hex, hpx⟩ := axisRun_final b.steps_x b.maximum_steps
    (b.direction_bits.testBit X_DIRECTION_BIT) hsx hM1
    (counterInit b.maximum_steps) b.pos_x hc0l hc0r
  obtain ⟨hey, hpy⟩ := axisRun_final b.steps_y b.maximum_steps
    (b.direction_bits.testBit Y_DIRECTION_BIT) hsy hM1
    (counterInit b.maximum_steps) b.pos_y hc0l hc0r
  obtain ⟨hez, hpz⟩ := axisRun_final b.steps_z b.maximum_steps
    (b.direction_bits.testBit Z_DIRECTION_BIT) hsz hM1
    (counterInit b.maximum_steps) b.pos_z hc0l hc0r
  exact ⟨i7.trans hex, i8.trans hey, i9.trans hez,
    i4.trans hpx, i5.trans hpy, i6.trans hpz⟩

/-- Witness for C1 at the spec's own example: a block with steps (3, 5, 0),
maximum 5, X moving negatively from (10, 20, 30): the emission counts over
the 5 ticks are exactly 3, 5 and 0, and the position ends at (7, 25, 30). -/
theorem C1_bresenham_exact_witness :
    countStepsOn cfgW btn0 X_STEP_BIT 5 sW = 3 ∧
    countStepsOn cfgW btn0 Y_STEP_BIT 5 sW = 5 ∧
    countStepsOn cfgW btn0 Z_STEP_BIT 5 sW = 0 ∧
    (st_ticks cfgW btn0 5 sW).actual_position_x = 7 ∧
    (st_ticks cfgW btn0 5 sW).actual_position_y = 25 ∧
    (st_ticks cfgW btn0 5 sW).actual_position_z = 30 := by
  obtain ⟨h1, h2, h3, h4, h5, h6⟩ := C1_bresenham_exact cfgW btn0 sW bW rfl (by decide)
    rfl rfl (by decide) (by decide) (by decide) (by decide) (by decide) (by decide)
  exact ⟨h1, h2, h3, h4.trans (by decide), h5.trans (by decide), h6.trans (by decide)⟩

/-- Claim C9: for every Run block with 0 ≤ steps_i ≤ max_steps and
max_steps ≥ 1, the Bresenham counter initialization -(max_steps >> 1) lies
in (-max_steps, 0], after every engine tick of the block each per-axis
counter again lies in (-max_steps, 0], and each axis emits at most one step
pulse per tick (the cumulative emission count grows by at most one per
tick), so the counters never drift without bound. -/
theorem C9_counter_invariant (cfg : Settings) (buttons : List Int) (s : StState) (b : Block)
    (hcb : s.current_block = none)
    (hne : s.block_buffer_head ≠ s.block_buffer_tail)
    (hblk : s.block_buffer s.block_buffer_tail = b)
    (hmode : b.mode = SM_RUN)
    (hM1 : 1 ≤ b.maximum_steps) (hM2 : b.maximum_steps < 2 ^ 32)
    (hsx : b.steps_x ≤ b.maximum_steps) (hsy : b.steps_y ≤ b.maximum_steps)
    (hsz : b.steps_z ≤ b.maximum_steps)
    (hdb : b.direction_bits &&& STEP_MASK = 0)
    (k : Nat) (hk1 : 1 ≤ k) (hk2 : k ≤ b.maximum_steps) :
    (-(b.maximum_steps : Int) < counterInit b.maximum_steps ∧
      counterInit b.maximum_steps ≤ 0) ∧
    (-(b.maximum_steps : Int) < (st_ticks cfg buttons k s).counter_x ∧
      (st_ticks cfg buttons k s).counter_x ≤ 0) ∧
    (-(b.maximum_steps : Int) < (st_ticks cfg buttons k s).counter_y ∧
      (st_ticks cfg buttons k s).counter_y ≤ 0) ∧
    (-(b.maximum_steps : Int) < (st_ticks cfg buttons k s).counter_z ∧
      (st_ticks cfg buttons k s).counter_z ≤ 0) ∧
    (∀ bit j, countStepsOn cfg buttons bit (j + 1) s ≤
      countStepsOn cfg buttons bit j s + 1) := by
  obtain ⟨i1, i2, i3, _⟩ :=
    st_run_sim cfg buttons s b hcb hne hblk hmode hM1 hM2 hdb k hk1 hk2
  obtain ⟨hc0l, hc0r⟩ := counterInit_bounds b.maximum_steps hM1
  obtain ⟨bx1, bx2, _⟩ := axisRun_inv b.steps_x b.maximum_steps
    (b.direction_bits.testBit X_DIRECTION_BIT) hsx hM1
    (counterInit b.maximum_steps) b.pos_x hc0l hc0r k
  obtain ⟨by1, by2, _⟩ := axisRun_inv b.steps_y b.maximum_steps
    (b.direction_bits.testBit Y_DIRECTION_BIT) hsy hM1
    (counterInit b.maximum_steps) b.pos_y hc0l hc0r k
  obtain ⟨bz1, bz2, _⟩ := axisRun_inv b.steps_z b.maximum_steps
    (b.direction_bits.testBit Z_DIRECTION_BIT) hsz hM1
    (counterInit b.maximum_steps) b.pos_z hc0l hc0r k
  refine ⟨⟨hc0l, hc0r⟩, ⟨?_, ?_⟩, ⟨?_, ?_⟩, ⟨?_, ?_⟩, ?_⟩
  · rw [i1]; exact bx1
  · rw [i1]; exact bx2
  · rw [i2]; exact by1
  · rw [i2]; exact by2
  · rw [i3]; exact bz1
  · rw [i3]; exact bz2
  · intro bit j
    rw [countStepsOn_succ]
    split <;> omega

/-- Witness for C9 at the (3, 5, 0) example after 4 of its 5 ticks. -/
theorem C9_counter_invariant_witness :
    (-(5 : Int) < (st_ticks cfgW btn0 4 sW).counter_x ∧
      (st_ticks cfgW btn0 4 sW).counter_x ≤ 0) ∧
    (-(5 : Int) < (st_ticks cfgW btn0 4 sW).counter_y ∧
      (st_ticks cfgW btn0 4 sW).counter_y ≤ 0) := by
  obtain ⟨_, h2, h3, _⟩ := C9_counter_invariant cfgW btn0 sW bW rfl (by decide)
    rfl rfl (by decide) (by decide) (by decide) (by decide) (by decide) (by decide)
    4 (by decide) (by decide)
  exact ⟨h2, h3⟩

/-- Claim C5 (amended): when the engine drains a final Run block and goes
idle with no jog input, actual_position ends at the block's start_position
plus its sign-adjusted steps, and the engine reports not-running; but the
position-sync callback fires on the drain transition only when the engine
had been driven by jog input (buttons_in_use set), in which case it fires
exactly once with the final actual_position (a further idle tick fires no
additional sync); after purely queued motion it fires zero times and the
upstream position store is left untouched. -/
theorem C5_amended (cfg : Settings) (buttons : List Int) (s : StState) (b : Block)
    (hcb : s.current_block = none)
    (hq : s.block_buffer_head = (s.block_buffer_tail + 1) % BLOCK_BUFFER_SIZE)
    (hblk : s.block_buffer s.block_buffer_tail = b)
    (hmode : b.mode = SM_RUN)
    (hM1 : 1 ≤ b.maximum_steps) (hM2 : b.maximum_steps < 2 ^ 32)
    (hsx : b.steps_x ≤ b.maximum_steps) (hsy : b.steps_y ≤ b.maximum_steps)
    (hsz : b.steps_z ≤ b.maximum_steps)
    (hdb : b.direction_bits &&& STEP_MASK = 0)
    (hb0 : buttons.getD 0 0 = 0) (hb1 : buttons.getD 1 0 = 0)
    (hb2 : buttons.getD 2 0 = 0) (hb3 : buttons.getD 3 0 = 0) :
    (st_ticks cfg buttons (b.maximum_steps + 1) s).actual_position_x =
      b.pos_x + (if b.direction_bits.testBit X_DIRECTION_BIT then -(b.steps_x : Int)
                 else (b.steps_x : Int)) ∧
    (st_ticks cfg buttons (b.maximum_steps + 1) s).actual_position_y =
      b.pos_y + (if b.direction_bits.testBit Y_DIRECTION_BIT then -(b.steps_y : Int)
                 else (b.steps_y : Int)) ∧
    (st_ticks cfg buttons (b.maximum_steps + 1) s).actual_position_z =
      b.pos_z + (if b.direction_bits.testBit Z_DIRECTION_BIT then -(b.steps_z : Int)
                 else (b.steps_z : Int)) ∧
    (st_ticks cfg buttons (b.maximum_steps + 1) s).mc_running = false ∧
    (st_ticks cfg buttons (b.maximum_steps + 1) s).sync_count =
      s.sync_count + (if s.buttons_in_use then 1 else 0) ∧
    (s.buttons_in_use = true →
      (st_ticks cfg buttons (b.maximum_steps + 1) s).position_x =
        (st_ticks cfg buttons (b.maximum_steps + 1) s).actual_position_x ∧
      (st_ticks cfg buttons (b.maximum_steps + 1) s).position_y =
        (st_ticks cfg buttons (b.maximum_steps + 1) s).actual_position_y ∧
      (st_ticks cfg buttons (b.maximum_steps + 1) s).position_z =
        (st_ticks cfg buttons (b.maximum_steps + 1) s).actual_position_z) ∧
    (s.buttons_in_use = false →
      (st_ticks cfg buttons (b.maximum_steps + 1) s).sync_count = s.sync_count ∧
      (st_ticks cfg buttons (b.maximum_steps + 1) s).position_x = s.position_x ∧
      (st_ticks cfg buttons (b.maximum_steps + 1) s).position_y = s.position_y ∧
      (st_ticks cfg buttons (b.maximum_steps + 1) s).position_z = s.position_z) ∧
    (st_tick cfg buttons (st_ticks cfg buttons (b.maximum_steps + 1) s)).sync_count =
      (st_ticks cfg buttons (b.maximum_steps + 1) s).sync_count := by
  have hne : s.block_buffer_head ≠ s.block_buffer_tail := by
    rw [hq]; simp only [BLOCK_BUFFER_SIZE]; omega
  obtain ⟨i1, i2, i3, i4, i5, i6, i7, i8, i9, i10, i11, i12, i13, i14, i15, i16,
    i17, i18, i19⟩ := st_run_sim cfg buttons s b hcb hne hblk hmode hM1 hM2 hdb
      b.maximum_steps hM1 le_rfl
  rw [if_neg (lt_irrefl _)] at i11 i14
  obtain ⟨hc0l, hc0r⟩ := counterInit_bounds b.maximum_steps hM1
  obtain ⟨_, hpx⟩ := axisRun_final b.steps_x b.maximum_steps
    (b.direction_bits.testBit X_DIRECTION_BIT) hsx hM1
    (counterInit b.maximum_steps) b.pos_x hc0l hc0r
  obtain ⟨_, hpy⟩ := axisRun_final b.steps_y b.maximum_steps
    (b.direction_bits.testBit Y_DIRECTION_BIT) hsy hM1
    (counterInit b.maximum_steps) b.pos_y hc0l hc0r
  obtain ⟨_, hpz⟩ := axisRun_final b.steps_z b.maximum_steps
    (b.direction_bits.testBit Z_DIRECTION_BIT) hsz hM1
    (counterInit b.maximum_steps) b.pos_z hc0l hc0r
  have hsucc : st_ticks cfg buttons (b.maximum_steps + 1) s =
      st_tick cfg buttons (st_ticks cfg buttons b.maximum_steps s) := rfl
  have hq2 : (st_ticks cfg buttons b.maximum_steps s).block_buffer_head =
      (st_ticks cfg buttons b.maximum_steps s).block_buffer_tail := by
    rw [i13, i14, hq]
  obtain ⟨d1, d2, d3, d4, d5, d6, d7, d8, d9, d10, d11, d12, d13, d14, d15, d16, d17⟩ :=
    st_tick_idle cfg buttons (st_ticks cfg buttons b.maximum_steps s) i11 hq2
      hb0 hb1 hb2 hb3
  have hq3 : (st_tick cfg buttons (st_ticks cfg buttons b.maximum_steps s)).block_buffer_head =
      (st_tick cfg buttons (st_ticks cfg buttons b.maximum_steps s)).block_buffer_tail := by
    rw [d12, d13, hq2]
  obtain ⟨_, _, _, e4, _⟩ :=
    st_tick_idle cfg buttons (st_tick cfg buttons (st_ticks cfg buttons b.maximum_steps s))
      d2 hq3 hb0 hb1 hb2 hb3
  refine ⟨?_, ?_, ?_, ?_, ?_, ?_, ?_, ?_⟩
  · rw [hsucc, d5, i4]; exact hpx
  · rw [hsucc, d6, i5]; exact hpy
  · rw [hsucc, d7, i6]; exact hpz
  · rw [hsucc]; exact d1
  · rw [hsucc, d4, i16, i15]
  · intro hbu
    refine ⟨?_, ?_, ?_⟩ <;> rw [hsucc] <;> simp [d5, d6, d7, d8, d9, d10, i15, hbu]
  · intro hbu
    refine ⟨?_, ?_, ?_, ?_⟩ <;> rw [hsucc] <;>
      simp [d4, d8, d9, d10, i15, i16, i17, i18, i19, hbu]
  · rw [hsucc] at *
    rw [e4, d3]
    simp

/-- Witness for C5 (amended) on the (3, 5, 0) example with no preceding jog:
after the block's 5 ticks plus the drain tick, the position is final, the
engine is idle and the sync callback never fired. -/
theorem C5_amended_witness :
    (st_ticks cfgW btn0 6 sW).actual_position_x = 7 ∧
    (st_ticks cfgW btn0 6 sW).mc_running = false ∧
    (st_ticks cfgW btn0 6 sW).sync_count = 0 := by
  obtain ⟨a1, _, _, a4, a5, _⟩ := C5_amended cfgW btn0 sW bW rfl (by decide) rfl rfl
    (by decide) (by decide) (by decide) (by decide) (by decide) (by decide)
    (by decide) (by decide) (by decide) (by decide)
  exact ⟨a1.trans (by decide), a4, a5.trans (by decide)⟩

/-- Claim C4: for every head and tail index pair of the block queue,
st_buffer_full returns true exactly when fewer than 2 slots are free, i.e.
exactly when (head+1) mod C = tail or (head+2) mod C = tail; and no enqueue
operation performed while the predicate is false overwrites a slot the
consumer has not yet read, even when it writes both a backlash block and a
real block. -/
theorem C4_queue_nearly_full (cfg : Settings) (s : StState)
    (hh : s.block_buffer_head < BLOCK_BUFFER_SIZE)
    (ht : s.block_buffer_tail < BLOCK_BUFFER_SIZE) :
    (st_buffer_full s = true ↔ free_slots s < 2) ∧
    (st_buffer_full s = true ↔
      ((s.block_buffer_head + 1) % BLOCK_BUFFER_SIZE = s.block_buffer_tail ∨
       (s.block_buffer_head + 2) % BLOCK_BUFFER_SIZE = s.block_buffer_tail)) ∧
    (st_buffer_full s = false →
      ∀ sx sy sz px py pz : Int, ∀ us : Nat, ∀ ln : Int, ∀ k : Nat,
        slot_unread s k = true →
        (st_buffer_block cfg sx sy sz px py pz us ln s).1.block_buffer k =
          s.block_buffer k) ∧
    (st_buffer_full s = false →
      ∀ ms : Nat, ∀ ln : Int, ∀ k : Nat,
        slot_unread s k = true →
        (st_buffer_delay ms ln s).1.block_buffer k = s.block_buffer k) := by
  have hful : st_buffer_full s = true ↔
      ((s.block_buffer_head + 1) % BLOCK_BUFFER_SIZE = s.block_buffer_tail ∨
       (s.block_buffer_head + 2) % BLOCK_BUFFER_SIZE = s.block_buffer_tail) := by
    simp [st_buffer_full]
  have hBB : BLOCK_BUFFER_SIZE = 10 := rfl
  refine ⟨?_, hful, ?_, ?_⟩
  · rw [hful]
    unfold free_slots
    rw [hBB] at hh ht ⊢
    omega
  · intro hfull sx sy sz px py pz us ln k hk
    have h12 : ¬((s.block_buffer_head + 1) % BLOCK_BUFFER_SIZE = s.block_buffer_tail ∨
        (s.block_buffer_head + 2) % BLOCK_BUFFER_SIZE = s.block_buffer_tail) := by
      rw [← hful, hfull]; simp
    obtain ⟨j, hj, hkj⟩ : ∃ j, j < (s.block_buffer_head + BLOCK_BUFFER_SIZE -
        s.block_buffer_tail) % BLOCK_BUFFER_SIZE ∧
        (s.block_buffer_tail + j) % BLOCK_BUFFER_SIZE = k := by
      simpa [slot_unread, List.any_eq_true] using hk
    have hkh : k ≠ s.block_buffer_head := by
      rw [hBB] at hj hkj hh ht h12; omega
    have hkh1 : k ≠ (s.block_buffer_head + 1) % BLOCK_BUFFER_SIZE := by
      rw [hBB] at hj hkj hh ht h12 ⊢; omega
    by_cases hm : max sx.natAbs (max sy.natAbs sz.natAbs) = 0
    · simp [st_buffer_block, hm]
    · by_cases hd : dir_bits_of sx sy sz ≠ s.old_direction_bits
      · by_cases hc : (0 < if (dir_bits_of sx sy sz).testBit X_DIRECTION_BIT =
              s.old_direction_bits.testBit X_DIRECTION_BIT then 0
            else cfg.backlash_x_count) ∨
          (0 < if (dir_bits_of sx sy sz).testBit Y_DIRECTION_BIT =
              s.old_direction_bits.testBit Y_DIRECTION_BIT then 0
            else cfg.backlash_y_count) ∨
          (0 < if (dir_bits_of sx sy sz).testBit Z_DIRECTION_BIT =
              s.old_direction_bits.testBit Z_DIRECTION_BIT then 0
            else cfg.backlash_z_count) <;>
          simp [st_buffer_block, hm, hd, hc, Function.update_noteq hkh,
            Function.update_noteq hkh1]
      · simp [st_buffer_block, hm, hd, Function.update_noteq hkh]
  · intro hfull ms ln k hk
    have h12 : ¬((s.block_buffer_head + 1) % BLOCK_BUFFER_SIZE = s.block_buffer_tail ∨
        (s.block_buffer_head + 2) % BLOCK_BUFFER_SIZE = s.block_buffer_tail) := by
      rw [← hful, hfull]; simp
    obtain ⟨j, hj, hkj⟩ : ∃ j, j < (s.block_buffer_head + BLOCK_BUFFER_SIZE -
        s.block_buffer_tail) % BLOCK_BUFFER_SIZE ∧
        (s.block_buffer_tail + j) % BLOCK_BUFFER_SIZE = k := by
      simpa [slot_unread, List.any_eq_true] using hk
    have hkh : k ≠ s.block_buffer_head := by
      rw [hBB] at hj hkj hh ht h12; omega
    by_cases hms : ms = 0
    · simp [st_buffer_delay, hms, st_stop, st_flush]
    · simp [st_buffer_delay, hms, Function.update_noteq hkh]

/-- Witness for C4 on the quiescent state (head = tail = 0): the buffer is
not nearly full and a full enqueue of a direction-reversing move leaves the
(empty) unread region untouched. -/
theorem C4_queue_nearly_full_witness :
    (st_buffer_full initialState = true ↔ free_slots initialState < 2) ∧
    st_buffer_full initialState = false := by
  obtain ⟨h1, _⟩ := C4_queue_nearly_full cfgW initialState (by decide) (by decide)
  exact ⟨h1, by decide⟩

/-- Claim C3: for every enqueue of a nonempty move whose direction bits db
differ from last_direction_bits, with reversed axes given by the xor ch and
per-axis compensation counts bx, byc, bz (the configured backlash count on
each reversed axis, zero elsewhere): when some reversed axis has a nonzero
count, exactly one backlash block is enqueued ahead of the real block,
carrying those counts, the new direction bits, mode Run and the same rate as
the real block; when every reversed axis has a zero configured count, no
backlash block is enqueued and only last_direction_bits updates.  In both
cases the call is accepted. -/
theorem C3_backlash_compensation (cfg : Settings) (sx sy sz px py pz : Int)
    (us : Nat) (ln : Int) (s : StState) (db ch bx byc bz : Nat)
    (hmax : max sx.natAbs (max sy.natAbs sz.natAbs) ≠ 0)
    (hdbv : db = dir_bits_of sx sy sz)
    (hdiff : db ≠ s.old_direction_bits)
    (hch : ch = db ^^^ s.old_direction_bits)
    (hbx : bx = (if ch.testBit X_DIRECTION_BIT then cfg.backlash_x_count else 0))
    (hby : byc = (if ch.testBit Y_DIRECTION_BIT then cfg.backlash_y_count else 0))
    (hbz : bz = (if ch.testBit Z_DIRECTION_BIT then cfg.backlash_z_count else 0)) :
    (st_buffer_block cfg sx sy sz px py pz us ln s).1.old_direction_bits = db ∧
    (st_buffer_block cfg sx sy sz px py pz us ln s).2 = true ∧
    (0 < max bx (max byc bz) →
      (st_buffer_block cfg sx sy sz px py pz us ln s).1.block_buffer_head =
        (s.block_buffer_head + 2) % BLOCK_BUFFER_SIZE ∧
      (st_buffer_block cfg sx sy sz px py pz us ln s).1.block_buffer
          s.block_buffer_head =
        { steps_x := bx, steps_y := byc, steps_z := bz,
          pos_x := px, pos_y := py, pos_z := pz,
          maximum_steps := max bx (max byc bz), direction_bits := db,
          rate := us / max sx.natAbs (max sy.natAbs sz.natAbs),
          backlash := true, line_number := ln, mode := SM_RUN } ∧
      (st_buffer_block cfg sx sy sz px py pz us ln s).1.block_buffer
          ((s.block_buffer_head + 1) % BLOCK_BUFFER_SIZE) =
        { steps_x := sx.natAbs, steps_y := sy.natAbs, steps_z := sz.natAbs,
          pos_x := px, pos_y := py, pos_z := pz,
          maximum_steps := max sx.natAbs (max sy.natAbs sz.natAbs),
          direction_bits := db,
          rate := us / max sx.natAbs (max sy.natAbs sz.natAbs),
          backlash := false, line_number := ln, mode := SM_RUN }) ∧
    (max bx (max byc bz) = 0 →
      (st_buffer_block cfg sx sy sz px py pz us ln s).1.block_buffer_head =
        (s.block_buffer_head + 1) % BLOCK_BUFFER_SIZE ∧
      (st_buffer_block cfg sx sy sz px py pz us ln s).1.block_buffer
          s.block_buffer_head =
        { steps_x := sx.natAbs, steps_y := sy.natAbs, steps_z := sz.natAbs,
          pos_x := px, pos_y := py, pos_z := pz,
          maximum_steps := max sx.natAbs (max sy.natAbs sz.natAbs),
          direction_bits := db,
          rate := us / max sx.natAbs (max sy.natAbs sz.natAbs),
          backlash := false, line_number := ln, mode := SM_RUN }) := by
  subst hdbv hch hbx hby hbz
  have hne1 : ∀ h : Nat, (h + 1) % BLOCK_BUFFER_SIZE ≠ h := by
    intro h; simp only [BLOCK_BUFFER_SIZE]; omega
  have hplus : ∀ h : Nat, ((h + 1) % BLOCK_BUFFER_SIZE + 1) % BLOCK_BUFFER_SIZE =
      (h + 2) % BLOCK_BUFFER_SIZE := by
    intro h; simp only [BLOCK_BUFFER_SIZE]; omega
  by_cases hcomp : 0 < max
      (if ((dir_bits_of sx sy sz) ^^^ s.old_direction_bits).testBit X_DIRECTION_BIT
       then cfg.backlash_x_count else 0)
      (max
        (if ((dir_bits_of sx sy sz) ^^^ s.old_direction_bits).testBit Y_DIRECTION_BIT
         then cfg.backlash_y_count else 0)
        (if ((dir_bits_of sx sy sz) ^^^ s.old_direction_bits).testBit Z_DIRECTION_BIT
         then cfg.backlash_z_count else 0))
  · refine ⟨?_, ?_, fun _ => ⟨?_, ?_, ?_⟩, fun h0 => absurd h0 (by omega)⟩ <;>
      (simp only [st_buffer_block]
       try rw [if_neg hmax, if_pos hdiff]
       try simp only []
       try rw [if_pos hcomp]
       try simp [hplus, Function.update_noteq (hne1 s.block_buffer_head),
         Function.update_noteq (Ne.symm (hne1 s.block_buffer_head)), Function.update_same])
  · refine ⟨?_, ?_, fun h0 => absurd h0 (by omega), fun _ => ⟨?_, ?_⟩⟩ <;>
      (simp only [st_buffer_block]
       try rw [if_neg hmax, if_pos hdiff]
       try simp only []
       try rw [if_neg hcomp]
       try simp [Function.update_same])

/-- Witness for C3: an X-reversing move (-3, 0, 0) with configured X
backlash of 2 enqueues the compensation block (2, 0, 0) ahead of the real
block (3, 0, 0), both at rate 600/3 = 200 with the new direction bits. -/
theorem C3_backlash_compensation_witness :
    (st_buffer_block cfgW (-3) 0 0 1 2 3 600 7 initialState).1.block_buffer_head = 2 ∧
    (st_buffer_block cfgW (-3) 0 0 1 2 3 600 7 initialState).1.block_buffer 0 =
      { steps_x := 2, steps_y := 0, steps_z := 0, pos_x := 1, pos_y := 2, pos_z := 3,
        maximum_steps := 2, direction_bits := 32, rate := 200, backlash := true,
        line_number := 7, mode := SM_RUN } ∧
    (st_buffer_block cfgW (-3) 0 0 1 2 3 600 7 initialState).1.block_buffer 1 =
      { steps_x := 3, steps_y := 0, steps_z := 0, pos_x := 1, pos_y := 2, pos_z := 3,
        maximum_steps := 3, direction_bits := 32, rate := 200, backlash := false,
        line_number := 7, mode := SM_RUN } := by
  obtain ⟨_, _, h3, _⟩ := C3_backlash_compensation cfgW (-3) 0 0 1 2 3 600 7 initialState
    32 32 2 0 0 (by decide) (by decide) (by decide) (by decide) (by decide) (by decide)
    (by decide)
  obtain ⟨g1, g2, g3⟩ := h3 (by decide)
  exact ⟨g1.trans (by decide), g2.trans (by decide), g3.trans (by decide)⟩

/-- Claim C8 (amended): a tick executed while the current block has mode
Halt asserts no step bit, leaves actual_position and the Bresenham counters
unchanged, and decrements iterations (retiring the block and advancing the
tail when it reaches zero); however out_bits is reloaded from the halt
block's direction_bits field — which enqueue_delay never initializes, so it
holds the slot's stale contents — and the direction outputs may therefore
change (see the counterexample). -/
theorem C8_halt_tick (cfg : Settings) (buttons : List Int) (s : StState) (i : Nat)
    (b : Block)
    (hcb : s.current_block = some i)
    (hblk : s.block_buffer i = b)
    (hmode : b.mode = SM_HALT)
    (hit1 : 1 ≤ s.iterations) (hit2 : s.iterations < 2 ^ 32)
    (hdb : b.direction_bits &&& STEP_MASK = 0) :
    (st_tick cfg buttons s).counter_x = s.counter_x ∧
    (st_tick cfg buttons s).counter_y = s.counter_y ∧
    (st_tick cfg buttons s).counter_z = s.counter_z ∧
    (st_tick cfg buttons s).actual_position_x = s.actual_position_x ∧
    (st_tick cfg buttons s).actual_position_y = s.actual_position_y ∧
    (st_tick cfg buttons s).actual_position_z = s.actual_position_z ∧
    (st_tick cfg buttons s).out_bits = b.direction_bits ^^^ cfg.invert_mask ∧
    ((st_tick cfg buttons s).out_bits ^^^ cfg.invert_mask).testBit X_STEP_BIT = false ∧
    ((st_tick cfg buttons s).out_bits ^^^ cfg.invert_mask).testBit Y_STEP_BIT = false ∧
    ((st_tick cfg buttons s).out_bits ^^^ cfg.invert_mask).testBit Z_STEP_BIT = false ∧
    (st_tick cfg buttons s).iterations = s.iterations - 1 ∧
    (st_tick cfg buttons s).current_block =
      (if s.iterations - 1 = 0 then none else some i) ∧
    (st_tick cfg buttons s).block_buffer = s.block_buffer ∧
    (st_tick cfg buttons s).block_buffer_head = s.block_buffer_head ∧
    (st_tick cfg buttons s).block_buffer_tail =
      (if s.iterations - 1 = 0 then (s.block_buffer_tail + 1) % BLOCK_BUFFER_SIZE
       else s.block_buffer_tail) ∧
    (st_tick cfg buttons s).sync_count = s.sync_count ∧
    (st_tick cfg buttons s).position_x = s.position_x ∧
    (st_tick cfg buttons s).position_y = s.position_y ∧
    (st_tick cfg buttons s).position_z = s.position_z := by
  have hdec : (s.iterations + 4294967295) % 4294967296 = s.iterations - 1 := by omega
  have hx := no_step_bit_x hdb
  have hy := no_step_bit_y hdb
  have hz := no_step_bit_z hdb
  have hxor : b.direction_bits ^^^ cfg.invert_mask ^^^ cfg.invert_mask =
      b.direction_bits := by
    rw [Nat.xor_assoc, Nat.xor_self, Nat.xor_zero]
  by_cases hM : s.iterations - 1 = 0 <;>
    simp [st_tick, hcb, hblk, hmode, hdec, hM, hxor, hx, hy, hz]

/-- Witness for C8 (amended) on the concrete state sH whose current block is
the Halt block bH with two iterations left. -/
theorem C8_halt_tick_witness :
    (st_tick cfgW btn0 sH).counter_x = 5 ∧
    (st_tick cfgW btn0 sH).actual_position_x = 11 ∧
    (st_tick cfgW btn0 sH).iterations = 1 ∧
    (st_tick cfgW btn0 sH).current_block = some 1 ∧
    ((st_tick cfgW btn0 sH).out_bits ^^^ cfgW.invert_mask).testBit X_STEP_BIT = false := by
  obtain ⟨h1, _, _, h4, _, _, _, h8, _, _, h11, h12, _⟩ :=
    C8_halt_tick cfgW btn0 sH 1 bH rfl (by decide) (by decide) (by decide) (by decide)
      (by decide)
  refine ⟨h1.trans (by decide), h4.trans (by decide), h11.trans (by decide),
    h12.trans (by decide), h8⟩

theorem jog_axis_x_pos (bi : Int) (pos : Int) (ob delay : Nat) :
    (jog_axis bi X_STEP_BIT X_DIRECTION_BIT pos ob delay).1 =
      (if 0 < bi.natAbs then (if ob.testBit X_DIRECTION_BIT then pos - 1 else pos + 1)
       else pos) := by
  have h : ((1 <<< X_STEP_BIT : Nat)).testBit X_DIRECTION_BIT = false := rfl
  by_cases hm : 0 < bi.natAbs <;> by_cases ht : ob.testBit X_DIRECTION_BIT <;>
    simp [jog_axis, hm, ht, Nat.testBit_lor, h]

theorem jog_axis_x_ob (bi : Int) (pos : Int) (ob delay : Nat) :
    (jog_axis bi X_STEP_BIT X_DIRECTION_BIT pos ob delay).2.1 =
      (if 0 < bi.natAbs then ob ||| (1 <<< X_STEP_BIT) else ob) := by
  have h : ((1 <<< X_STEP_BIT : Nat)).testBit X_DIRECTION_BIT = false := rfl
  by_cases hm : 0 < bi.natAbs <;> by_cases ht : ob.testBit X_DIRECTION_BIT <;>
    simp [jog_axis, hm, ht, Nat.testBit_lor, h]

theorem jog_axis_x_delay (bi : Int) (pos : Int) (ob delay : Nat) :
    (jog_axis bi X_STEP_BIT X_DIRECTION_BIT pos ob delay).2.2 =
      (if 0 < bi.natAbs then FULL_SPEED_DELAY <<< (8 - bi.natAbs) else delay) := by
  have h : ((1 <<< X_STEP_BIT : Nat)).testBit X_DIRECTION_BIT = false := rfl
  by_cases hm : 0 < bi.natAbs <;> by_cases ht : ob.testBit X_DIRECTION_BIT <;>
    simp [jog_axis, hm, ht, Nat.testBit_lor, h]

theorem jog_axis_y_pos (bi : Int) (pos : Int) (ob delay : Nat) :
    (jog_axis bi Y_STEP_BIT Y_DIRECTION_BIT pos ob delay).1 =
      (if 0 < bi.natAbs then (if ob.testBit Y_DIRECTION_BIT then pos - 1 else pos + 1)
       else pos) := by
  have h : ((1 <<< Y_STEP_BIT : Nat)).testBit Y_DIRECTION_BIT = false := rfl
  by_cases hm : 0 < bi.natAbs <;> by_cases ht : ob.testBit Y_DIRECTION_BIT <;>
    simp [jog_axis, hm, ht, Nat.testBit_lor, h]

theorem jog_axis_y_ob (bi : Int) (pos : Int) (ob delay : Nat) :
    (jog_axis bi Y_STEP_BIT Y_DIRECTION_BIT pos ob delay).2.1 =
      (if 0 < bi.natAbs then ob ||| (1 <<< Y_STEP_BIT) else ob) := by
  have h : ((1 <<< Y_STEP_BIT : Nat)).testBit Y_DIRECTION_BIT = false := rfl
  by_cases hm : 0 < bi.natAbs <;> by_cases ht : ob.testBit Y_DIRECTION_BIT <;>
    simp [jog_axis, hm, ht, Nat.testBit_lor, h]

theorem jog_axis_y_delay (bi : Int) (pos : Int) (ob delay : Nat) :
    (jog_axis bi Y_STEP_BIT Y_DIRECTION_BIT pos ob delay).2.2 =
      (if 0 < bi.natAbs then FULL_SPEED_DELAY <<< (8 - bi.natAbs) else delay) := by
  have h : ((1 <<< Y_STEP_BIT : Nat)).testBit Y_DIRECTION_BIT = false := rfl
  by_cases hm : 0 < bi.natAbs <;> by_cases ht : ob.testBit Y_DIRECTION_BIT <;>
    simp [jog_axis, hm, ht, Nat.testBit_lor, h]

theorem jog_axis_z_pos (bi : Int) (pos : Int) (ob delay : Nat) :
    (jog_axis bi Z_STEP_BIT Z_DIRECTION_BIT pos ob delay).1 =
      (if 0 < bi.natAbs then (if ob.testBit Z_DIRECTION_BIT then pos - 1 else pos + 1)
       else pos) := by
  have h : ((1 <<< Z_STEP_BIT : Nat)).testBit Z_DIRECTION_BIT = false := rfl
  by_cases hm : 0 < bi.natAbs <;> by_cases ht : ob.testBit Z_DIRECTION_BIT <;>
    simp [jog_axis, hm, ht, Nat.testBit_lor, h]

theorem jog_axis_z_ob (bi : Int) (pos : Int) (ob delay : Nat) :
    (jog_axis bi Z_STEP_BIT Z_DIRECTION_BIT pos ob delay).2.1 =
      (if 0 < bi.natAbs then ob ||| (1 <<< Z_STEP_BIT) else ob) := by
  have h : ((1 <<< Z_STEP_BIT : Nat)).testBit Z_DIRECTION_BIT = false := rfl
  by_cases hm : 0 < bi.natAbs <;> by_cases ht : ob.testBit Z_DIRECTION_BIT <;>
    simp [jog_axis, hm, ht, Nat.testBit_lor, h]

theorem jog_axis_z_delay (bi : Int) (pos : Int) (ob delay : Nat) :
    (jog_axis bi Z_STEP_BIT Z_DIRECTION_BIT pos ob delay).2.2 =
      (if 0 < bi.natAbs then FULL_SPEED_DELAY <<< (8 - bi.natAbs) else delay) := by
  have h : ((1 <<< Z_STEP_BIT : Nat)).testBit Z_DIRECTION_BIT = false := rfl
  by_cases hm : 0 < bi.natAbs <;> by_cases ht : ob.testBit Z_DIRECTION_BIT <;>
    simp [jog_axis, hm, ht, Nat.testBit_lor, h]

theorem jog_dir_bits_x (b0 b1 b2 : Int) :
    (jog_dir_bits b0 b1 b2).testBit X_DIRECTION_BIT = decide (b0 < 0) := by
  by_cases h0 : b0 < 0 <;> by_cases h1 : b1 < 0 <;> by_cases h2 : b2 < 0 <;>
    simp [jog_dir_bits, h0, h1, h2, Nat.testBit] <;> decide

theorem jog_dir_bits_y (b0 b1 b2 : Int) :
    (jog_dir_bits b0 b1 b2).testBit Y_DIRECTION_BIT = decide (b1 < 0) := by
  by_cases h0 : b0 < 0 <;> by_cases h1 : b1 < 0 <;> by_cases h2 : b2 < 0 <;>
    simp [jog_dir_bits, h0, h1, h2, Nat.testBit] <;> decide

theorem jog_dir_bits_z (b0 b1 b2 : Int) :
    (jog_dir_bits b0 b1 b2).testBit Z_DIRECTION_BIT = decide (b2 < 0) := by
  by_cases h0 : b0 < 0 <;> by_cases h1 : b1 < 0 <;> by_cases h2 : b2 < 0 <;>
    simp [jog_dir_bits, h0, h1, h2, Nat.testBit] <;> decide

theorem st_jog_eq (cfg : Settings) (b0 b1 b2 b3 : Int) (s : StState) :
    (st_process_manual_buttons cfg [b0, b1, b2, b3] s).1 =
      { s with
        out_bits := jog_out_bits b0 b1 b2 ^^^ cfg.invert_mask,
        timer_prescaler := (config_step_timer (jog_delay b0 b1 b2)).1,
        timer_ceiling := (config_step_timer (jog_delay b0 b1 b2)).2,
        actual_position_x := s.actual_position_x + jog_move b0,
        actual_position_y := s.actual_position_y + jog_move b1,
        actual_position_z := s.actual_position_z + jog_move b2 } := by
  have t46 : Nat.testBit (1 <<< X_STEP_BIT) Y_DIRECTION_BIT = false := rfl
  have t47 : Nat.testBit (1 <<< X_STEP_BIT) Z_DIRECTION_BIT = false := rfl
  have t87 : Nat.testBit (1 <<< Y_STEP_BIT) Z_DIRECTION_BIT = false := rfl
  simp only [st_process_manual_buttons, List.getD_cons_zero, List.getD_cons_succ,
    jog_axis_x_pos, jog_axis_x_ob, jog_axis_x_delay,
    jog_axis_y_pos, jog_axis_y_ob, jog_axis_y_delay,
    jog_axis_z_pos, jog_axis_z_ob, jog_axis_z_delay]
  congr 1
  · -- x position
    rw [jog_dir_bits_x]
    by_cases hm0 : 0 < b0.natAbs <;> by_cases hs0 : b0 < 0 <;>
      simp [jog_move, hm0, hs0] <;> omega
  · -- y position
    by_cases hm0 : 0 < b0.natAbs <;> by_cases hm1 : 0 < b1.natAbs <;>
      by_cases hs1 : b1 < 0 <;>
        simp [jog_move, hm0, hm1, hs1, Nat.testBit_lor, t46, jog_dir_bits_y] <;> omega
  · -- z position
    by_cases hm0 : 0 < b0.natAbs <;> by_cases hm1 : 0 < b1.natAbs <;>
      by_cases hm2 : 0 < b2.natAbs <;> by_cases hs2 : b2 < 0 <;>
        simp [jog_move, hm0, hm1, hm2, hs2, Nat.testBit_lor, t47, t87,
          jog_dir_bits_z] <;> omega

theorem jog_dir_bits_low2 (b0 b1 b2 : Int) :
    (jog_dir_bits b0 b1 b2).testBit X_STEP_BIT = false := by
  by_cases h0 : b0 < 0 <;> by_cases h1 : b1 < 0 <;> by_cases h2 : b2 < 0 <;>
    simp [jog_dir_bits, h0, h1, h2] <;> decide

theorem jog_dir_bits_low3 (b0 b1 b2 : Int) :
    (jog_dir_bits b0 b1 b2).testBit Y_STEP_BIT = false := by
  by_cases h0 : b0 < 0 <;> by_cases h1 : b1 < 0 <;> by_cases h2 : b2 < 0 <;>
    simp [jog_dir_bits, h0, h1, h2] <;> decide

theorem jog_dir_bits_low4 (b0 b1 b2 : Int) :
    (jog_dir_bits b0 b1 b2).testBit Z_STEP_BIT = false := by
  by_cases h0 : b0 < 0 <;> by_cases h1 : b1 < 0 <;> by_cases h2 : b2 < 0 <;>
    simp [jog_dir_bits, h0, h1, h2] <;> decide

theorem jog_out_bits_dir_x (b0 b1 b2 : Int) :
    (jog_out_bits b0 b1 b2).testBit X_DIRECTION_BIT = decide (b0 < 0) := by
  have f25 : Nat.testBit (1 <<< X_STEP_BIT) X_DIRECTION_BIT = false := rfl
  have g25 : (decide (X_STEP_BIT ≤ X_DIRECTION_BIT) && Nat.testBit 1 (X_DIRECTION_BIT - X_STEP_BIT)) = false := rfl
  have f35 : Nat.testBit (1 <<< Y_STEP_BIT) X_DIRECTION_BIT = false := rfl
  have g35 : (decide (Y_STEP_BIT ≤ X_DIRECTION_BIT) && Nat.testBit 1 (X_DIRECTION_BIT - Y_STEP_BIT)) = false := rfl
  have f45 : Nat.testBit (1 <<< Z_STEP_BIT) X_DIRECTION_BIT = false := rfl
  have g45 : (decide (Z_STEP_BIT ≤ X_DIRECTION_BIT) && Nat.testBit 1 (X_DIRECTION_BIT - Z_STEP_BIT)) = false := rfl
  by_cases hm0 : 0 < b0.natAbs <;> by_cases hm1 : 0 < b1.natAbs <;>
    by_cases hm2 : 0 < b2.natAbs <;>
      simp [jog_out_bits, hm0, hm1, hm2, Nat.testBit_lor,
        f25, f35, f45, g25, g35, g45, jog_dir_bits_x]

theorem jog_out_bits_dir_y (b0 b1 b2 : Int) :
    (jog_out_bits b0 b1 b2).testBit Y_DIRECTION_BIT = decide (b1 < 0) := by
  have f26 : Nat.testBit (1 <<< X_STEP_BIT) Y_DIRECTION_BIT = false := rfl
  have g26 : (decide (X_STEP_BIT ≤ Y_DIRECTION_BIT) && Nat.testBit 1 (Y_DIRECTION_BIT - X_STEP_BIT)) = false := rfl
  have f36 : Nat.testBit (1 <<< Y_STEP_BIT) Y_DIRECTION_BIT = false := rfl
  have g36 : (decide (Y_STEP_BIT ≤ Y_DIRECTION_BIT) && Nat.testBit 1 (Y_DIRECTION_BIT - Y_STEP_BIT)) = false := rfl
  have f46 : Nat.testBit (1 <<< Z_STEP_BIT) Y_DIRECTION_BIT = false := rfl
  have g46 : (decide (Z_STEP_BIT ≤ Y_DIRECTION_BIT) && Nat.testBit 1 (Y_DIRECTION_BIT - Z_STEP_BIT)) = false := rfl
  by_cases hm0 : 0 < b0.natAbs <;> by_cases hm1 : 0 < b1.natAbs <;>
    by_cases hm2 : 0 < b2.natAbs <;>
      simp [jog_out_bits, hm0, hm1, hm2, Nat.testBit_lor,
        f26, f36, f46, g26, g36, g46, jog_dir_bits_y]

theorem jog_out_bits_dir_z (b0 b1 b2 : Int) :
    (jog_out_bits b0 b1 b2).testBit Z_DIRECTION_BIT = decide (b2 < 0) := by
  have f27 : Nat.testBit (1 <<< X_STEP_BIT) Z_DIRECTION_BIT = false := rfl
  have g27 : (decide (X_STEP_BIT ≤ Z_DIRECTION_BIT) && Nat.testBit 1 (Z_DIRECTION_BIT - X_STEP_BIT)) = false := rfl
  have f37 : Nat.testBit (1 <<< Y_STEP_BIT) Z_DIRECTION_BIT = false := rfl
  have g37 : (decide (Y_STEP_BIT ≤ Z_DIRECTION_BIT) && Nat.testBit 1 (Z_DIRECTION_BIT - Y_STEP_BIT)) = false := rfl
  have f47 : Nat.testBit (1 <<< Z_STEP_BIT) Z_DIRECTION_BIT = false := rfl
  have g47 : (decide (Z_STEP_BIT ≤ Z_DIRECTION_BIT) && Nat.testBit 1 (Z_DIRECTION_BIT - Z_STEP_BIT)) = false := rfl
  by_cases hm0 : 0 < b0.natAbs <;> by_cases hm1 : 0 < b1.natAbs <;>
    by_cases hm2 : 0 < b2.natAbs <;>
      simp [jog_out_bits, hm0, hm1, hm2, Nat.testBit_lor,
        f27, f37, f47, g27, g37, g47, jog_dir_bits_z]

theorem jog_out_bits_step_x (b0 b1 b2 : Int) :
    (jog_out_bits b0 b1 b2).testBit X_STEP_BIT = decide (0 < b0.natAbs) := by
  have f22 : Nat.testBit (1 <<< X_STEP_BIT) X_STEP_BIT = true := rfl
  have g22 : (decide (X_STEP_BIT ≤ X_STEP_BIT) && Nat.testBit 1 (X_STEP_BIT - X_STEP_BIT)) = true := rfl
  have f32 : Nat.testBit (1 <<< Y_STEP_BIT) X_STEP_BIT = false := rfl
  have f42 : Nat.testBit (1 <<< Z_STEP_BIT) X_STEP_BIT = false := rfl
  by_cases hm0 : 0 < b0.natAbs <;> by_cases hm1 : 0 < b1.natAbs <;>
    by_cases hm2 : 0 < b2.natAbs <;>
      simp [jog_out_bits, hm0, hm1, hm2, Nat.testBit_lor,
        f22, f32, f42, g22, jog_dir_bits_low2]

theorem jog_out_bits_step_y (b0 b1 b2 : Int) :
    (jog_out_bits b0 b1 b2).testBit Y_STEP_BIT = decide (0 < b1.natAbs) := by
  have f23 : Nat.testBit (1 <<< X_STEP_BIT) Y_STEP_BIT = false := rfl
  have g23 : (decide (X_STEP_BIT ≤ Y_STEP_BIT) && Nat.testBit 1 (Y_STEP_BIT - X_STEP_BIT)) = false := rfl
  have f33 : Nat.testBit (1 <<< Y_STEP_BIT) Y_STEP_BIT = true := rfl
  have g33 : (decide (Y_STEP_BIT ≤ Y_STEP_BIT) && Nat.testBit 1 (Y_STEP_BIT - Y_STEP_BIT)) = true := rfl
  have f43 : Nat.testBit (1 <<< Z_STEP_BIT) Y_STEP_BIT = false := rfl
  by_cases hm0 : 0 < b0.natAbs <;> by_cases hm1 : 0 < b1.natAbs <;>
    by_cases hm2 : 0 < b2.natAbs <;>
      simp [jog_out_bits, hm0, hm1, hm2, Nat.testBit_lor,
        f23, f33, f43, g23, g33, jog_dir_bits_low3]

theorem jog_out_bits_step_z (b0 b1 b2 : Int) :
    (jog_out_bits b0 b1 b2).testBit Z_STEP_BIT = decide (0 < b2.natAbs) := by
  have f24 : Nat.testBit (1 <<< X_STEP_BIT) Z_STEP_BIT = false := rfl
  have g24 : (decide (X_STEP_BIT ≤ Z_STEP_BIT) && Nat.testBit 1 (Z_STEP_BIT - X_STEP_BIT)) = false := rfl
  have f34 : Nat.testBit (1 <<< Y_STEP_BIT) Z_STEP_BIT = false := rfl
  have g34 : (decide (Y_STEP_BIT ≤ Z_STEP_BIT) && Nat.testBit 1 (Z_STEP_BIT - Y_STEP_BIT)) = false := rfl
  have f44 : Nat.testBit (1 <<< Z_STEP_BIT) Z_STEP_BIT = true := rfl
  have g44 : (decide (Z_STEP_BIT ≤ Z_STEP_BIT) && Nat.testBit 1 (Z_STEP_BIT - Z_STEP_BIT)) = true := rfl
  by_cases hm0 : 0 < b0.natAbs <;> by_cases hm1 : 0 < b1.natAbs <;>
    by_cases hm2 : 0 < b2.natAbs <;>
      simp [jog_out_bits, hm0, hm1, hm2, Nat.testBit_lor,
        f24, f34, f44, g24, g34, g44, jog_dir_bits_low4]

/-- Claim C7 (amended): for each axis with nonzero operator magnitude the
direction bit comes from the sign of the magnitude and the step bit is
asserted with actual_position moved by one in that direction; the
inter-step delay of an axis of magnitude m is FULL_SPEED_DELAY <<< (8 - m)
(a left shift, so a larger magnitude still gives a strictly shorter delay);
and the timer ends programmed to the rate of the last processed active axis
(z over y over x; the initial 1000 microsecond value when no axis is
active), not necessarily the fastest requested one. -/
theorem C7_manual_jog (cfg : Settings) (b0 b1 b2 b3 : Int) (s : StState)
    (h0 : b0.natAbs ≤ 8) (h1 : b1.natAbs ≤ 8) (h2 : b2.natAbs ≤ 8) :
    ((st_process_manual_buttons cfg [b0, b1, b2, b3] s).1.out_bits ^^^
      cfg.invert_mask).testBit X_DIRECTION_BIT = decide (b0 < 0) ∧
    ((st_process_manual_buttons cfg [b0, b1, b2, b3] s).1.out_bits ^^^
      cfg.invert_mask).testBit Y_DIRECTION_BIT = decide (b1 < 0) ∧
    ((st_process_manual_buttons cfg [b0, b1, b2, b3] s).1.out_bits ^^^
      cfg.invert_mask).testBit Z_DIRECTION_BIT = decide (b2 < 0) ∧
    ((st_process_manual_buttons cfg [b0, b1, b2, b3] s).1.out_bits ^^^
      cfg.invert_mask).testBit X_STEP_BIT = decide (0 < b0.natAbs) ∧
    ((st_process_manual_buttons cfg [b0, b1, b2, b3] s).1.out_bits ^^^
      cfg.invert_mask).testBit Y_STEP_BIT = decide (0 < b1.natAbs) ∧
    ((st_process_manual_buttons cfg [b0, b1, b2, b3] s).1.out_bits ^^^
      cfg.invert_mask).testBit Z_STEP_BIT = decide (0 < b2.natAbs) ∧
    (st_process_manual_buttons cfg [b0, b1, b2, b3] s).1.actual_position_x =
      s.actual_position_x +
        (if 0 < b0.natAbs then (if b0 < 0 then -1 else 1) else 0) ∧
    (st_process_manual_buttons cfg [b0, b1, b2, b3] s).1.actual_position_y =
      s.actual_position_y +
        (if 0 < b1.natAbs then (if b1 < 0 then -1 else 1) else 0) ∧
    (st_process_manual_buttons cfg [b0, b1, b2, b3] s).1.actual_position_z =
      s.actual_position_z +
        (if 0 < b2.natAbs then (if b2 < 0 then -1 else 1) else 0) ∧
    (0 < b2.natAbs →
      ((st_process_manual_buttons cfg [b0, b1, b2, b3] s).1.timer_prescaler,
       (st_process_manual_buttons cfg [b0, b1, b2, b3] s).1.timer_ceiling) =
        config_step_timer (FULL_SPEED_DELAY <<< (8 - b2.natAbs))) ∧
    (b2.natAbs = 0 → 0 < b1.natAbs →
      ((st_process_manual_buttons cfg [b0, b1, b2, b3] s).1.timer_prescaler,
       (st_process_manual_buttons cfg [b0, b1, b2, b3] s).1.timer_ceiling) =
        config_step_timer (FULL_SPEED_DELAY <<< (8 - b1.natAbs))) ∧
    (b2.natAbs = 0 → b1.natAbs = 0 → 0 < b0.natAbs →
      ((st_process_manual_buttons cfg [b0, b1, b2, b3] s).1.timer_prescaler,
       (st_process_manual_buttons cfg [b0, b1, b2, b3] s).1.timer_ceiling) =
        config_step_timer (FULL_SPEED_DELAY <<< (8 - b0.natAbs))) ∧
    (b2.natAbs = 0 → b1.natAbs = 0 → b0.natAbs = 0 →
      ((st_process_manual_buttons cfg [b0, b1, b2, b3] s).1.timer_prescaler,
       (st_process_manual_buttons cfg [b0, b1, b2, b3] s).1.timer_ceiling) =
        config_step_timer 1000) ∧
    (∀ m2, m2 < 9 → ∀ m1, m1 < m2 →
      FULL_SPEED_DELAY <<< (8 - m2) < FULL_SPEED_DELAY <<< (8 - m1)) := by
  have hmono : ∀ m2, m2 < 9 → ∀ m1, m1 < m2 →
      FULL_SPEED_DELAY <<< (8 - m2) < FULL_SPEED_DELAY <<< (8 - m1) := by decide
  have hxor : ∀ a : Nat, a ^^^ cfg.invert_mask ^^^ cfg.invert_mask = a := by
    intro a; rw [Nat.xor_assoc, Nat.xor_self, Nat.xor_zero]
  rw [st_jog_eq]
  refine ⟨?_, ?_, ?_, ?_, ?_, ?_, ?_, ?_, ?_, ?_, ?_, ?_, ?_, hmono⟩
  · simp [hxor, jog_out_bits_dir_x]
  · simp [hxor, jog_out_bits_dir_y]
  · simp [hxor, jog_out_bits_dir_z]
  · simp [hxor, jog_out_bits_step_x]
  · simp [hxor, jog_out_bits_step_y]
  · simp [hxor, jog_out_bits_step_z]
  · simp [jog_move]
  · simp [jog_move]
  · simp [jog_move]
  · intro h; simp [jog_delay, h]
  · intro h2 h1; simp [jog_delay, h2, h1]
  · intro h2 h1 h0; simp [jog_delay, h2, h1, h0]
  · intro h2 h1 h0; simp [jog_delay, h2, h1, h0]

/-- Witness for C7 (amended) at magnitudes (-7, 0, 3): X jogs negative at
delay 198, Z jogs positive, and the timer ends at the Z rate. -/
theorem C7_manual_jog_witness :
    ((st_process_manual_buttons cfgW [-7, 0, 3, 0] initialState).1.out_bits ^^^
      cfgW.invert_mask).testBit X_DIRECTION_BIT = true ∧
    (st_process_manual_buttons cfgW [-7, 0, 3, 0] initialState).1.actual_position_x = -1 ∧
    (st_process_manual_buttons cfgW [-7, 0, 3, 0] initialState).1.actual_position_z = 1 ∧
    ((st_process_manual_buttons cfgW [-7, 0, 3, 0] initialState).1.timer_prescaler,
     (st_process_manual_buttons cfgW [-7, 0, 3, 0] initialState).1.timer_ceiling) =
      config_step_timer (FULL_SPEED_DELAY <<< 5) := by
  obtain ⟨g1, _, _, _, _, _, g7, _, g9, g10, _⟩ :=
    C7_manual_jog cfgW (-7) 0 3 0 initialState (by decide) (by decide) (by decide)
  refine ⟨g1.trans (by decide), g7.trans (by decide), g9.trans (by decide), ?_⟩
  exact (g10 (by decide)).trans (by decide)

end Grbl
